import Mathlib

/-!
Shallow embedding of the RDPEI client channel (channels/rdpei/client/rdpei_main.c):
the touch/pen contact registries, the frame batcher (drain), the send paths with
their timestamp bookkeeping, and the ready-negotiation handlers.

Machine integers are modelled as `Nat` (unsigned) and `Int` (signed); wherever the C
code can overflow a fixed width, the reduction `% 2 ^ w` is written explicitly.
Stateful C code is modelled by explicit state passing on the `RDPEI_PLUGIN` record.
The wire is modelled at the level of the structured values handed to the
variable-length-integer writers of rdpei_common.c (one record field per written value).
-/

/-! ## Protocol constants (values from MS-RDPEI / freerdp/channels/rdpei.h) -/

def RDPINPUT_CONTACT_FLAG_DOWN : Nat := 0x0001

def RDPINPUT_CONTACT_FLAG_UPDATE : Nat := 0x0002

def RDPINPUT_CONTACT_FLAG_UP : Nat := 0x0004

def RDPINPUT_CONTACT_FLAG_INRANGE : Nat := 0x0008

def RDPINPUT_CONTACT_FLAG_INCONTACT : Nat := 0x0010

def RDPINPUT_CONTACT_FLAG_CANCELED : Nat := 0x0020

def CONTACT_DATA_CONTACTRECT_PRESENT : Nat := 0x0001

def CONTACT_DATA_ORIENTATION_PRESENT : Nat := 0x0002

def CONTACT_DATA_PRESSURE_PRESENT : Nat := 0x0004

def RDPINPUT_PEN_CONTACT_PENFLAGS_PRESENT : Nat := 0x0001

def RDPINPUT_PEN_CONTACT_PRESSURE_PRESENT : Nat := 0x0002

def RDPINPUT_PEN_CONTACT_ROTATION_PRESENT : Nat := 0x0004

def RDPINPUT_PEN_CONTACT_TILTX_PRESENT : Nat := 0x0008

def RDPINPUT_PEN_CONTACT_TILTY_PRESENT : Nat := 0x0010

def RDPINPUT_PROTOCOL_V10 : Nat := 0x00010000

def RDPINPUT_PROTOCOL_V101 : Nat := 0x00010001

def RDPINPUT_PROTOCOL_V200 : Nat := 0x00020000

def RDPINPUT_PROTOCOL_V300 : Nat := 0x00030000

def SC_READY_MULTIPEN_INJECTION_SUPPORTED : Nat := 0x0001

def CS_READY_FLAGS_SHOW_TOUCH_VISUALS : Nat := 0x00000001

def CS_READY_FLAGS_DISABLE_TIMESTAMP_INJECTION : Nat := 0x00000002

def CS_READY_FLAGS_ENABLE_MULTIPEN_INJECTION : Nat := 0x00000004

def CHANNEL_RC_OK : Nat := 0

def ERROR_INTERNAL_ERROR : Nat := 0x054F

def ERROR_INVALID_DATA : Nat := 13

def ERROR_INVALID_PARAMETER : Nat := 87

/-- MAX_CONTACTS of rdpei_main.c. -/
def MAX_CONTACTS : Nat := 64

/-- MAX_PEN_CONTACTS of rdpei_main.c. -/
def MAX_PEN_CONTACTS : Nat := 4

/-- Modulus of a UINT64. -/
def two64 : Nat := 2 ^ 64

/-- Modulus of a UINT32. -/
def two32 : Nat := 2 ^ 32

/-- UINT64 subtraction `a - b` with wraparound, for operands below `two64`. -/
def sub64 (a b : Nat) : Nat := (two64 + a - b) % two64

/-- The `bounded` helper of rdpei_main.c: clamp an INT32 to the INT16 range. -/
def bounded (val : Int) : Int :=
  if val < -32768 then -32768
  else if val > 32767 then 32767
  else val

/-- Modelled from the spec: `WINPR_ASSERTING_INT_CAST(INT16, v)` comes from
winpr/cast.h, which is not under src/; §4.1 of the spec states that pen tilt
values (and the other INT16-bound inputs) are clamped to the 16-bit signed
range, so the cast is modelled as that clamp. -/
def winpr_cast_int16 (v : Int) : Int :=
  if v < -32768 then -32768
  else if v > 32767 then 32767
  else v

/-- Modelled from the spec: `WINPR_ASSERTING_INT_CAST(UINT16, v)` comes from
winpr/cast.h, which is not under src/; the callers in rdpei_main.c pass values
that fit in 16 bits, on which the C conversion is the reduction below. -/
def winpr_cast_uint16 (v : Nat) : Nat := v % 2 ^ 16

/-! ## Data model (RDPINPUT structures) -/

/-- RDPINPUT_CONTACT_DATA. -/
structure RDPINPUT_CONTACT_DATA where
  contactId : Nat
  fieldsPresent : Nat
  x : Int
  y : Int
  contactFlags : Nat
  contactRectLeft : Int
  contactRectTop : Int
  contactRectRight : Int
  contactRectBottom : Int
  orientation : Nat
  pressure : Nat
deriving DecidableEq, Repr

/-- The all-zero RDPINPUT_CONTACT_DATA (C `= { 0 }` initialisation). -/
def zeroContactData : RDPINPUT_CONTACT_DATA :=
  { contactId := 0, fieldsPresent := 0, x := 0, y := 0, contactFlags := 0
    contactRectLeft := 0, contactRectTop := 0, contactRectRight := 0
    contactRectBottom := 0, orientation := 0, pressure := 0 }

/-- RDPINPUT_CONTACT_POINT: one slot of the touch registry. -/
structure RDPINPUT_CONTACT_POINT where
  active : Bool
  dirty : Bool
  contactId : Nat
  externalId : Int
  data : RDPINPUT_CONTACT_DATA
deriving DecidableEq, Repr

/-- A fresh inactive touch slot (the zero-initialised plugin state). -/
def zeroContactPoint : RDPINPUT_CONTACT_POINT :=
  { active := false, dirty := false, contactId := 0, externalId := 0
    data := zeroContactData }

/-- RDPINPUT_PEN_CONTACT. -/
structure RDPINPUT_PEN_CONTACT where
  deviceId : Nat
  fieldsPresent : Nat
  x : Int
  y : Int
  contactFlags : Nat
  penFlags : Nat
  pressure : Nat
  rotation : Nat
  tiltX : Int
  tiltY : Int
deriving DecidableEq, Repr

/-- The all-zero RDPINPUT_PEN_CONTACT. -/
def zeroPenContact : RDPINPUT_PEN_CONTACT :=
  { deviceId := 0, fieldsPresent := 0, x := 0, y := 0, contactFlags := 0
    penFlags := 0, pressure := 0, rotation := 0, tiltX := 0, tiltY := 0 }

/-- RDPINPUT_PEN_CONTACT_POINT: one slot of the pen registry. -/
structure RDPINPUT_PEN_CONTACT_POINT where
  active : Bool
  dirty : Bool
  externalId : Int
  data : RDPINPUT_PEN_CONTACT
deriving DecidableEq, Repr

/-- A fresh inactive pen slot. -/
def zeroPenContactPoint : RDPINPUT_PEN_CONTACT_POINT :=
  { active := false, dirty := false, externalId := 0, data := zeroPenContact }

/-- The RDPEI_PLUGIN state: registries, negotiated parameters and the frame
timestamp pairs. `suspendInput` is the host-owned FreeRDP_SuspendInput flag read
by the send paths; `channelConnected` models a non-NULL channel callback. -/
structure RDPEI_PLUGIN where
  version : Nat
  features : Nat
  maxTouchContacts : Nat
  currentFrameTime : Nat
  previousFrameTime : Nat
  contactPoints : List RDPINPUT_CONTACT_POINT
  currentPenFrameTime : Nat
  previousPenFrameTime : Nat
  maxPenContacts : Nat
  penContactPoints : List RDPINPUT_PEN_CONTACT_POINT
  clientFeaturesMask : Nat
  suspendInput : Bool
  channelConnected : Bool
deriving DecidableEq, Repr

/-- The plugin state built by init_plugin_cb: version V300, capacities 64/4,
zero timestamps, zero-initialised registries, clientFeaturesMask UINT32_MAX. -/
def rdpei_init_state (connected suspended : Bool) : RDPEI_PLUGIN :=
  { version := RDPINPUT_PROTOCOL_V300, features := 0
    maxTouchContacts := MAX_CONTACTS
    currentFrameTime := 0, previousFrameTime := 0
    contactPoints := List.replicate MAX_CONTACTS zeroContactPoint
    currentPenFrameTime := 0, previousPenFrameTime := 0
    maxPenContacts := MAX_PEN_CONTACTS
    penContactPoints := List.replicate MAX_PEN_CONTACTS zeroPenContactPoint
    clientFeaturesMask := two32 - 1
    suspendInput := suspended, channelConnected := connected }

/-! ## Touch registry (rdpei_contact, rdpei_add_contact) -/

/-- The scan loop of `rdpei_contact`, carrying the slot index `i`. For each slot:
an inactive slot is skipped when searching an active contact; an inactive slot is
allocated (contactId := index, externalId bound, active set) when not searching an
active contact; otherwise an active slot is returned when its externalId matches.
Returns the found/allocated point, its index and the updated table. -/
def rdpei_contact_loop (externalId : Int) (active : Bool) (i : Nat) :
    List RDPINPUT_CONTACT_POINT →
      Option (Nat × RDPINPUT_CONTACT_POINT × List RDPINPUT_CONTACT_POINT)
  | [] => none
  | cp :: rest =>
    if cp.active = false ∧ active = true then
      match rdpei_contact_loop externalId active (i + 1) rest with
      | none => none
      | some (j, r, rest2) => some (j, r, cp :: rest2)
    else if cp.active = false ∧ active = false then
      let cp2 : RDPINPUT_CONTACT_POINT :=
        { cp with contactId := i, externalId := externalId, active := true }
      some (i, cp2, cp2 :: rest)
    else if cp.externalId = externalId then
      some (i, cp, cp :: rest)
    else
      match rdpei_contact_loop externalId active (i + 1) rest with
      | none => none
      | some (j, r, rest2) => some (j, r, cp :: rest2)

/-- `rdpei_contact`: scan the touch registry from slot 0. -/
def rdpei_contact (pts : List RDPINPUT_CONTACT_POINT) (externalId : Int)
    (active : Bool) :
    Option (Nat × RDPINPUT_CONTACT_POINT × List RDPINPUT_CONTACT_POINT) :=
  rdpei_contact_loop externalId active 0 pts

/-- `rdpei_add_contact`: store `contact` into the slot indexed by
`contact.contactId` and mark it dirty. The C code performs this array write with
no bounds check; an out-of-bounds index is undefined behaviour, modelled as
`none`. -/
def rdpei_add_contact (pts : List RDPINPUT_CONTACT_POINT)
    (contact : RDPINPUT_CONTACT_DATA) : Option (List RDPINPUT_CONTACT_POINT) :=
  match pts[contact.contactId]? with
  | none => none
  | some cp =>
    some (pts.set contact.contactId { cp with data := contact, dirty := true })

/-- The optional va_list arguments of `rdpei_touch_process`, read only when the
corresponding `fieldsPresent` bit is set. -/
structure TOUCH_ARGS where
  rectLeft : Int
  rectTop : Int
  rectRight : Int
  rectBottom : Int
  orientation : Nat
  pressure : Nat
deriving DecidableEq, Repr

/-- The all-zero argument pack (the plain begin/update/end/cancel calls pass an
empty va_list and fieldFlags 0). -/
def zeroTouchArgs : TOUCH_ARGS :=
  { rectLeft := 0, rectTop := 0, rectRight := 0, rectBottom := 0
    orientation := 0, pressure := 0 }

/-- The contact-construction block of `rdpei_touch_process`: x/y/contactId/flags
copied, fieldsPresent cast to UINT16, the optional rectangle cast to INT16,
orientation clamped to 359 when 360 or larger, pressure clamped to 1024 when
above 1024. -/
def rdpei_touch_build_contact (contactIdlocal : Nat) (contactFlags : Nat)
    (x y : Int) (fieldFlags : Nat) (args : TOUCH_ARGS) : RDPINPUT_CONTACT_DATA :=
  { contactId := contactIdlocal
    fieldsPresent := winpr_cast_uint16 fieldFlags
    x := x, y := y
    contactFlags := contactFlags
    contactRectLeft :=
      if fieldFlags &&& CONTACT_DATA_CONTACTRECT_PRESENT ≠ 0 then
        winpr_cast_int16 args.rectLeft
      else 0
    contactRectTop :=
      if fieldFlags &&& CONTACT_DATA_CONTACTRECT_PRESENT ≠ 0 then
        winpr_cast_int16 args.rectTop
      else 0
    contactRectRight :=
      if fieldFlags &&& CONTACT_DATA_CONTACTRECT_PRESENT ≠ 0 then
        winpr_cast_int16 args.rectRight
      else 0
    contactRectBottom :=
      if fieldFlags &&& CONTACT_DATA_CONTACTRECT_PRESENT ≠ 0 then
        winpr_cast_int16 args.rectBottom
      else 0
    orientation :=
      if fieldFlags &&& CONTACT_DATA_ORIENTATION_PRESENT ≠ 0 then
        if args.orientation ≥ 360 then 359 else args.orientation
      else 0
    pressure :=
      if fieldFlags &&& CONTACT_DATA_PRESSURE_PRESENT ≠ 0 then
        if args.pressure > 1024 then 1024 else args.pressure
      else 0 }

/-- `rdpei_touch_process`: look the externalId up in the touch registry
(allocating only when the DOWN flag is present), then build the contact and store
it through `rdpei_add_contact`. Returns (error, written contactId output, state);
`none` models the undefined behaviour of an out-of-bounds `rdpei_add_contact`
write. When no slot is obtained the event is dropped: the error stays
CHANNEL_RC_OK and the contactId output is -1. -/
def rdpei_touch_process (st : RDPEI_PLUGIN) (externalId : Int)
    (contactFlags : Nat) (x y : Int) (fieldFlags : Nat) (args : TOUCH_ARGS) :
    Option (Nat × Int × RDPEI_PLUGIN) :=
  let isBegin := contactFlags &&& RDPINPUT_CONTACT_FLAG_DOWN ≠ 0
  match rdpei_contact st.contactPoints externalId (if isBegin then false else true) with
  | none => some (CHANNEL_RC_OK, -1, st)
  | some (_, cp, pts1) =>
    let contact := rdpei_touch_build_contact cp.contactId contactFlags x y
      fieldFlags args
    match rdpei_add_contact pts1 contact with
    | none => none
    | some pts2 => some (CHANNEL_RC_OK, (cp.contactId : Int),
        { st with contactPoints := pts2 })

/-- `rdpei_touch_begin`: DOWN ||| INRANGE ||| INCONTACT, no optional fields. -/
def rdpei_touch_begin (st : RDPEI_PLUGIN) (externalId : Int) (x y : Int) :
    Option (Nat × Int × RDPEI_PLUGIN) :=
  rdpei_touch_process st externalId
    (RDPINPUT_CONTACT_FLAG_DOWN ||| RDPINPUT_CONTACT_FLAG_INRANGE |||
      RDPINPUT_CONTACT_FLAG_INCONTACT) x y 0 zeroTouchArgs

/-- `rdpei_touch_update`: UPDATE ||| INRANGE ||| INCONTACT, no optional fields. -/
def rdpei_touch_update (st : RDPEI_PLUGIN) (externalId : Int) (x y : Int) :
    Option (Nat × Int × RDPEI_PLUGIN) :=
  rdpei_touch_process st externalId
    (RDPINPUT_CONTACT_FLAG_UPDATE ||| RDPINPUT_CONTACT_FLAG_INRANGE |||
      RDPINPUT_CONTACT_FLAG_INCONTACT) x y 0 zeroTouchArgs

/-- `rdpei_touch_end`: an UPDATE-flagged process call followed, when it
succeeded, by an UP-flagged one. -/
def rdpei_touch_end (st : RDPEI_PLUGIN) (externalId : Int) (x y : Int) :
    Option (Nat × Int × RDPEI_PLUGIN) :=
  match rdpei_touch_process st externalId
      (RDPINPUT_CONTACT_FLAG_UPDATE ||| RDPINPUT_CONTACT_FLAG_INRANGE |||
        RDPINPUT_CONTACT_FLAG_INCONTACT) x y 0 zeroTouchArgs with
  | none => none
  | some (err, cid, st1) =>
    if err ≠ CHANNEL_RC_OK then some (err, cid, st1)
    else rdpei_touch_process st1 externalId RDPINPUT_CONTACT_FLAG_UP x y 0
      zeroTouchArgs

/-- `rdpei_touch_cancel`: UP ||| CANCELED. -/
def rdpei_touch_cancel (st : RDPEI_PLUGIN) (externalId : Int) (x y : Int) :
    Option (Nat × Int × RDPEI_PLUGIN) :=
  rdpei_touch_process st externalId
    (RDPINPUT_CONTACT_FLAG_UP ||| RDPINPUT_CONTACT_FLAG_CANCELED) x y 0
    zeroTouchArgs

/-! ## Frame batcher (rdpei_add_frame loop body and scan) -/

/-- The UPDATE ||| INRANGE ||| INCONTACT rewrite target of the drain loops. -/
def updateFlags : Nat :=
  RDPINPUT_CONTACT_FLAG_UPDATE ||| RDPINPUT_CONTACT_FLAG_INRANGE |||
    RDPINPUT_CONTACT_FLAG_INCONTACT

/-- What one iteration of the `rdpei_add_frame` loop emits for a slot: a dirty
slot emits its data as-is; an active non-dirty slot emits its data after the
one-shot DOWN flags are rewritten to UPDATE ||| INRANGE ||| INCONTACT; an
inactive non-dirty slot emits nothing. -/
def rdpei_frame_emit (cp : RDPINPUT_CONTACT_POINT) :
    Option RDPINPUT_CONTACT_DATA :=
  if cp.dirty then some cp.data
  else if cp.active then
    if cp.data.contactFlags &&& RDPINPUT_CONTACT_FLAG_DOWN ≠ 0 then
      some { cp.data with contactFlags := updateFlags }
    else some cp.data
  else none

/-- How one iteration of the `rdpei_add_frame` loop leaves a slot: the dirty
flag cleared on emission, the DOWN rewrite persisted into the stored data, and
the slot deactivated (externalId and contactId reset) whenever its stored flags
carry UP after the branch. -/
def rdpei_frame_step (cp : RDPINPUT_CONTACT_POINT) : RDPINPUT_CONTACT_POINT :=
  let cp1 :=
    if cp.dirty then { cp with dirty := false }
    else if cp.active then
      if cp.data.contactFlags &&& RDPINPUT_CONTACT_FLAG_DOWN ≠ 0 then
        { cp with data := { cp.data with contactFlags := updateFlags } }
      else cp
    else cp
  if cp1.data.contactFlags &&& RDPINPUT_CONTACT_FLAG_UP ≠ 0 then
    { cp1 with active := false, externalId := 0, contactId := 0 }
  else cp1

/-- The slot loop of `rdpei_add_frame`: collect the emitted contacts in slot
order and apply the per-slot state update. -/
def rdpei_add_frame_scan :
    List RDPINPUT_CONTACT_POINT →
      List RDPINPUT_CONTACT_DATA × List RDPINPUT_CONTACT_POINT
  | [] => ([], [])
  | cp :: rest =>
    ((rdpei_frame_emit cp).toList ++ (rdpei_add_frame_scan rest).1,
      rdpei_frame_step cp :: (rdpei_add_frame_scan rest).2)

/-! ## Touch wire structures and send path -/

/-- RDPINPUT_TOUCH_FRAME as passed to rdpei_send_frame. -/
structure RDPINPUT_TOUCH_FRAME where
  frameOffset : Nat
  contacts : List RDPINPUT_CONTACT_DATA
deriving DecidableEq, Repr

/-- The values `rdpei_write_touch_frame` hands to the wire writers for one
frame: contactCount, frameOffset scaled to microseconds (UINT64 arithmetic), and
each contact with its rectangle recomputed from (x, y) ± 2 clamped through
`bounded` and the RECT presence bit forced on. -/
structure TOUCH_FRAME_WIRE where
  contactCount : Nat
  frameOffsetMicroseconds : Nat
  contacts : List RDPINPUT_CONTACT_DATA
deriving DecidableEq, Repr

/-- The rectangle rewrite `rdpei_write_touch_frame` applies to every contact
before serialising it (rectSize = 2). -/
def rdpei_wire_contact (c : RDPINPUT_CONTACT_DATA) : RDPINPUT_CONTACT_DATA :=
  { c with fieldsPresent := c.fieldsPresent ||| CONTACT_DATA_CONTACTRECT_PRESENT
           contactRectLeft := bounded (c.x - 2)
           contactRectTop := bounded (c.y - 2)
           contactRectRight := bounded (c.x + 2)
           contactRectBottom := bounded (c.y + 2) }

/-- `rdpei_write_touch_frame`. -/
def rdpei_write_touch_frame (frame : RDPINPUT_TOUCH_FRAME) : TOUCH_FRAME_WIRE :=
  { contactCount := frame.contacts.length
    frameOffsetMicroseconds := frame.frameOffset * 1000 % two64
    contacts := frame.contacts.map rdpei_wire_contact }

/-- One EVENTID_TOUCH PDU as written by `rdpei_send_touch_event_pdu`:
encodeTime is the frame offset truncated to UINT32, frameCount is the constant
1, then the single touch frame. -/
structure TOUCH_EVENT_PDU where
  encodeTime : Nat
  frameCount : Nat
  frame : TOUCH_FRAME_WIRE
deriving DecidableEq, Repr

/-- `rdpei_send_touch_event_pdu`: while the host FreeRDP_SuspendInput flag is
set, return CHANNEL_RC_OK without writing anything; otherwise serialise the PDU
and hand it to the channel write, whose status `writeStatus` (0 = accepted) is
returned. -/
def rdpei_send_touch_event_pdu (st : RDPEI_PLUGIN)
    (frame : RDPINPUT_TOUCH_FRAME) (writeStatus : Nat) :
    Nat × Option TOUCH_EVENT_PDU :=
  if st.suspendInput then (CHANNEL_RC_OK, none)
  else
    let pdu : TOUCH_EVENT_PDU :=
      { encodeTime := frame.frameOffset % two32
        frameCount := 1
        frame := rdpei_write_touch_frame frame }
    if writeStatus ≠ 0 then (writeStatus, none)
    else (CHANNEL_RC_OK, some pdu)

/-- `rdpei_send_frame`: no-op success when the channel callback is NULL;
otherwise stamp the frame (offset 0 when both stored timestamps are still zero,
else now minus previousFrameTime in UINT64 arithmetic), send the PDU, and
advance previousFrameTime only when the send returned CHANNEL_RC_OK. `now` is
the GetTickCount64 value at the call. -/
def rdpei_send_frame (st : RDPEI_PLUGIN) (now : Nat)
    (frame : RDPINPUT_TOUCH_FRAME) (writeStatus : Nat) :
    Nat × RDPEI_PLUGIN × Option TOUCH_EVENT_PDU :=
  if st.channelConnected = false then (CHANNEL_RC_OK, st, none)
  else
    let off :=
      if st.previousFrameTime = 0 ∧ st.currentFrameTime = 0 then 0
      else sub64 now st.previousFrameTime
    let st1 := { st with currentFrameTime := now }
    let r := rdpei_send_touch_event_pdu st1 { frame with frameOffset := off }
      writeStatus
    if r.1 ≠ CHANNEL_RC_OK then (r.1, st1, none)
    else (CHANNEL_RC_OK,
      { st1 with previousFrameTime := st1.currentFrameTime }, r.2)

/-- `rdpei_add_frame`: drain the touch registry; send a frame only when at
least one contact was emitted. -/
def rdpei_add_frame (st : RDPEI_PLUGIN) (now : Nat) (writeStatus : Nat) :
    Nat × RDPEI_PLUGIN × Option TOUCH_EVENT_PDU :=
  let scan := rdpei_add_frame_scan st.contactPoints
  let st1 := { st with contactPoints := scan.2 }
  if scan.1.length > 0 then
    rdpei_send_frame st1 now { frameOffset := 0, contacts := scan.1 } writeStatus
  else (CHANNEL_RC_OK, st1, none)

/-! ## Pen registry (rdpei_pen_contact, rdpei_add_pen, rdpei_pen_process) -/

/-- The scan loop of `rdpei_pen_contact`: when searching an active contact,
return the first active slot whose externalId matches without mutating anything;
when allocating, bind the first inactive slot to the externalId and activate it.
Returns the found/allocated point, its index and the updated table. -/
def rdpei_pen_contact_loop (externalId : Int) (active : Bool) (i : Nat) :
    List RDPINPUT_PEN_CONTACT_POINT →
      Option (Nat × RDPINPUT_PEN_CONTACT_POINT × List RDPINPUT_PEN_CONTACT_POINT)
  | [] => none
  | cp :: rest =>
    if active then
      if cp.active ∧ cp.externalId = externalId then some (i, cp, cp :: rest)
      else
        match rdpei_pen_contact_loop externalId active (i + 1) rest with
        | none => none
        | some (j, r, rest2) => some (j, r, cp :: rest2)
    else
      if cp.active = false then
        let cp2 : RDPINPUT_PEN_CONTACT_POINT :=
          { cp with externalId := externalId, active := true }
        some (i, cp2, cp2 :: rest)
      else
        match rdpei_pen_contact_loop externalId active (i + 1) rest with
        | none => none
        | some (j, r, rest2) => some (j, r, cp :: rest2)

/-- `rdpei_pen_contact`: scan the pen registry from slot 0. -/
def rdpei_pen_contact (pts : List RDPINPUT_PEN_CONTACT_POINT)
    (externalId : Int) (active : Bool) :
    Option (Nat × RDPINPUT_PEN_CONTACT_POINT × List RDPINPUT_PEN_CONTACT_POINT) :=
  rdpei_pen_contact_loop externalId active 0 pts

/-- `rdpei_add_pen`: look the externalId up among active pen slots and, when
found, store the contact there and mark the slot dirty; always CHANNEL_RC_OK. -/
def rdpei_add_pen (pts : List RDPINPUT_PEN_CONTACT_POINT) (externalId : Int)
    (contact : RDPINPUT_PEN_CONTACT) : List RDPINPUT_PEN_CONTACT_POINT :=
  match rdpei_pen_contact pts externalId true with
  | none => pts
  | some (i, cp, _) =>
    pts.set i { cp with data := contact, dirty := true }

/-- The optional va_list arguments of `rdpei_pen_process`. -/
structure PEN_ARGS where
  penFlags : Nat
  pressure : Nat
  rotation : Nat
  tiltX : Int
  tiltY : Int
deriving DecidableEq, Repr

/-- The all-zero pen argument pack. -/
def zeroPenArgs : PEN_ARGS :=
  { penFlags := 0, pressure := 0, rotation := 0, tiltX := 0, tiltY := 0 }

/-- The contact-construction block of `rdpei_pen_process`: deviceId stays 0,
fieldsPresent cast to UINT16, optional penFlags/pressure/rotation cast to
UINT16 and tilt values cast to INT16 when their presence bits are set. -/
def rdpei_pen_build_contact (contactFlags : Nat) (fieldFlags : Nat) (x y : Int)
    (args : PEN_ARGS) : RDPINPUT_PEN_CONTACT :=
  { deviceId := 0
    fieldsPresent := winpr_cast_uint16 fieldFlags
    x := x, y := y
    contactFlags := contactFlags
    penFlags :=
      if fieldFlags &&& RDPINPUT_PEN_CONTACT_PENFLAGS_PRESENT ≠ 0 then
        winpr_cast_uint16 args.penFlags
      else 0
    pressure :=
      if fieldFlags &&& RDPINPUT_PEN_CONTACT_PRESSURE_PRESENT ≠ 0 then
        winpr_cast_uint16 args.pressure
      else 0
    rotation :=
      if fieldFlags &&& RDPINPUT_PEN_CONTACT_ROTATION_PRESENT ≠ 0 then
        winpr_cast_uint16 args.rotation
      else 0
    tiltX :=
      if fieldFlags &&& RDPINPUT_PEN_CONTACT_TILTX_PRESENT ≠ 0 then
        winpr_cast_int16 args.tiltX
      else 0
    tiltY :=
      if fieldFlags &&& RDPINPUT_PEN_CONTACT_TILTY_PRESENT ≠ 0 then
        winpr_cast_int16 args.tiltY
      else 0 }

/-- `rdpei_pen_process`: look the externalId up among active pen slots; when it
is not active and the contact flags carry INRANGE, allocate a fresh slot; when a
slot was obtained, build the contact and store it through AddPen
(`rdpei_add_pen`). An event that obtains no slot is dropped with
CHANNEL_RC_OK. -/
def rdpei_pen_process (st : RDPEI_PLUGIN) (externalId : Int)
    (contactFlags : Nat) (fieldFlags : Nat) (x y : Int) (args : PEN_ARGS) :
    Nat × RDPEI_PLUGIN :=
  let lookup :=
    match rdpei_pen_contact st.penContactPoints externalId true with
    | some r => some r
    | none =>
      if contactFlags &&& RDPINPUT_CONTACT_FLAG_INRANGE =
          RDPINPUT_CONTACT_FLAG_INRANGE then
        rdpei_pen_contact st.penContactPoints externalId false
      else none
  match lookup with
  | none => (CHANNEL_RC_OK, st)
  | some (_, _, pts1) =>
    let contact := rdpei_pen_build_contact contactFlags fieldFlags x y args
    (CHANNEL_RC_OK,
      { st with penContactPoints := rdpei_add_pen pts1 externalId contact })

/-- `rdpei_pen_begin`: DOWN ||| INRANGE ||| INCONTACT. -/
def rdpei_pen_begin (st : RDPEI_PLUGIN) (externalId : Int) (fieldFlags : Nat)
    (x y : Int) (args : PEN_ARGS) : Nat × RDPEI_PLUGIN :=
  rdpei_pen_process st externalId
    (RDPINPUT_CONTACT_FLAG_DOWN ||| RDPINPUT_CONTACT_FLAG_INRANGE |||
      RDPINPUT_CONTACT_FLAG_INCONTACT) fieldFlags x y args

/-- `rdpei_pen_update`: UPDATE ||| INRANGE ||| INCONTACT. -/
def rdpei_pen_update (st : RDPEI_PLUGIN) (externalId : Int) (fieldFlags : Nat)
    (x y : Int) (args : PEN_ARGS) : Nat × RDPEI_PLUGIN :=
  rdpei_pen_process st externalId
    (RDPINPUT_CONTACT_FLAG_UPDATE ||| RDPINPUT_CONTACT_FLAG_INRANGE |||
      RDPINPUT_CONTACT_FLAG_INCONTACT) fieldFlags x y args

/-- `rdpei_pen_end`: UP ||| INRANGE. -/
def rdpei_pen_end (st : RDPEI_PLUGIN) (externalId : Int) (fieldFlags : Nat)
    (x y : Int) (args : PEN_ARGS) : Nat × RDPEI_PLUGIN :=
  rdpei_pen_process st externalId
    (RDPINPUT_CONTACT_FLAG_UP ||| RDPINPUT_CONTACT_FLAG_INRANGE) fieldFlags x y
    args

/-- `rdpei_pen_hover_begin`: UPDATE ||| INRANGE (no DOWN flag). -/
def rdpei_pen_hover_begin (st : RDPEI_PLUGIN) (externalId : Int)
    (fieldFlags : Nat) (x y : Int) (args : PEN_ARGS) : Nat × RDPEI_PLUGIN :=
  rdpei_pen_process st externalId
    (RDPINPUT_CONTACT_FLAG_UPDATE ||| RDPINPUT_CONTACT_FLAG_INRANGE) fieldFlags
    x y args

/-- `rdpei_pen_hover_update`: UPDATE ||| INRANGE. -/
def rdpei_pen_hover_update (st : RDPEI_PLUGIN) (externalId : Int)
    (fieldFlags : Nat) (x y : Int) (args : PEN_ARGS) : Nat × RDPEI_PLUGIN :=
  rdpei_pen_process st externalId
    (RDPINPUT_CONTACT_FLAG_UPDATE ||| RDPINPUT_CONTACT_FLAG_INRANGE) fieldFlags
    x y args

/-- `rdpei_pen_hover_cancel`: UPDATE ||| CANCELED. -/
def rdpei_pen_hover_cancel (st : RDPEI_PLUGIN) (externalId : Int)
    (fieldFlags : Nat) (x y : Int) (args : PEN_ARGS) : Nat × RDPEI_PLUGIN :=
  rdpei_pen_process st externalId
    (RDPINPUT_CONTACT_FLAG_UPDATE ||| RDPINPUT_CONTACT_FLAG_CANCELED)
    fieldFlags x y args

/-! ## Pen frame batcher and send path -/

/-- What one iteration of the `rdpei_add_pen_frame` loop emits for a slot. -/
def rdpei_pen_frame_emit (cp : RDPINPUT_PEN_CONTACT_POINT) :
    Option RDPINPUT_PEN_CONTACT :=
  if cp.dirty then some cp.data
  else if cp.active then
    if cp.data.contactFlags &&& RDPINPUT_CONTACT_FLAG_DOWN ≠ 0 then
      some { cp.data with contactFlags := updateFlags }
    else some cp.data
  else none

/-- How one iteration of the `rdpei_add_pen_frame` loop leaves a slot: dirty
cleared on emission, the DOWN rewrite persisted, and the slot deactivated
(externalId cleared) whenever its stored flags carry CANCELED after the
branch. -/
def rdpei_pen_frame_step (cp : RDPINPUT_PEN_CONTACT_POINT) :
    RDPINPUT_PEN_CONTACT_POINT :=
  let cp1 :=
    if cp.dirty then { cp with dirty := false }
    else if cp.active then
      if cp.data.contactFlags &&& RDPINPUT_CONTACT_FLAG_DOWN ≠ 0 then
        { cp with data := { cp.data with contactFlags := updateFlags } }
      else cp
    else cp
  if cp1.data.contactFlags &&& RDPINPUT_CONTACT_FLAG_CANCELED ≠ 0 then
    { cp1 with externalId := 0, active := false }
  else cp1

/-- The slot loop of `rdpei_add_pen_frame`. -/
def rdpei_add_pen_frame_scan :
    List RDPINPUT_PEN_CONTACT_POINT →
      List RDPINPUT_PEN_CONTACT × List RDPINPUT_PEN_CONTACT_POINT
  | [] => ([], [])
  | cp :: rest =>
    ((rdpei_pen_frame_emit cp).toList ++ (rdpei_add_pen_frame_scan rest).1,
      rdpei_pen_frame_step cp :: (rdpei_add_pen_frame_scan rest).2)

/-- One pen frame as serialised by `rdpei_write_pen_frame`: contactCount,
frameOffset at millisecond granularity (no scaling), then the contacts. -/
structure PEN_FRAME_WIRE where
  contactCount : Nat
  frameOffset : Nat
  contacts : List RDPINPUT_PEN_CONTACT
deriving DecidableEq, Repr

/-- One EVENTID_PEN PDU as written by `rdpei_send_pen_event_pdu`. -/
structure PEN_EVENT_PDU where
  encodeTime : Nat
  frameCount : Nat
  frames : List PEN_FRAME_WIRE
deriving DecidableEq, Repr

/-- `rdpei_send_pen_frame`: while the host FreeRDP_SuspendInput flag is set,
return CHANNEL_RC_OK without touching the pen timestamps or the wire; then
no-op success when the channel callback is NULL; otherwise stamp the frame from
the pen timestamp pair, reject offsets above UINT32_MAX
(ERROR_INVALID_PARAMETER in rdpei_send_pen_event_pdu), send, and advance
previousPenFrameTime only on success. -/
def rdpei_send_pen_frame (st : RDPEI_PLUGIN) (now : Nat)
    (contacts : List RDPINPUT_PEN_CONTACT) (writeStatus : Nat) :
    Nat × RDPEI_PLUGIN × Option PEN_EVENT_PDU :=
  if st.suspendInput then (CHANNEL_RC_OK, st, none)
  else if st.channelConnected = false then (CHANNEL_RC_OK, st, none)
  else
    let off :=
      if st.previousPenFrameTime = 0 ∧ st.currentPenFrameTime = 0 then 0
      else sub64 now st.previousPenFrameTime
    let st1 := { st with currentPenFrameTime := now }
    if off > two32 - 1 then (ERROR_INVALID_PARAMETER, st1, none)
    else if writeStatus ≠ 0 then (writeStatus, st1, none)
    else
      (CHANNEL_RC_OK, { st1 with previousPenFrameTime := st1.currentPenFrameTime },
        some { encodeTime := off
               frameCount := 1
               frames := [{ contactCount := contacts.length
                            frameOffset := off
                            contacts := contacts }] })

/-- `rdpei_add_pen_frame`: drain the pen registry; send a pen frame only when at
least one contact was emitted. -/
def rdpei_add_pen_frame (st : RDPEI_PLUGIN) (now : Nat) (writeStatus : Nat) :
    Nat × RDPEI_PLUGIN × Option PEN_EVENT_PDU :=
  let scan := rdpei_add_pen_frame_scan st.penContactPoints
  let st1 := { st with penContactPoints := scan.2 }
  if scan.1.length > 0 then rdpei_send_pen_frame st1 now scan.1 writeStatus
  else (CHANNEL_RC_OK, st1, none)

/-! ## Ready negotiation -/

/-- `rdpei_recv_sc_ready_pdu`: the payload is modelled as the list of 4-byte
words remaining in the stream. An empty payload, or a protocolVersion of V300 or
newer with no further word, is ERROR_INVALID_DATA (`none`). The features word is
read when present and defaults to 0; the local version is lowered to the peer
version when the peer advertises less; the returned flag records whether the
unknown-protocol warning (peer version above V300) was logged. -/
def rdpei_recv_sc_ready_pdu (st : RDPEI_PLUGIN) (payload : List Nat) :
    Option (RDPEI_PLUGIN × Bool) :=
  match payload with
  | [] => none
  | protocolVersion :: rest =>
    if RDPINPUT_PROTOCOL_V300 ≤ protocolVersion ∧ rest = [] then none
    else
      let features := match rest.head? with | some f => f | none => 0
      let st1 :=
        if st.version > protocolVersion then { st with version := protocolVersion }
        else st
      let st2 := { st1 with features := features }
      some (st2, decide (protocolVersion > RDPINPUT_PROTOCOL_V300))

/-- The CS_READY reply payload: flags, protocolVersion, maxTouchContacts. -/
structure CS_READY_PDU where
  flags : Nat
  protocolVersion : Nat
  maxTouchContacts : Nat
deriving DecidableEq, Repr

/-- `rdpei_send_cs_ready_pdu`: the flags are the show-touch-visuals bit, plus
the disable-timestamp-injection bit when the negotiated version is above V10,
plus the enable-multipen-injection bit when the peer advertised multipen
support, each masked by the host clientFeaturesMask; the reply echoes the
negotiated version and the local maxTouchContacts. -/
def rdpei_send_cs_ready_pdu (st : RDPEI_PLUGIN) : CS_READY_PDU :=
  let flags0 := CS_READY_FLAGS_SHOW_TOUCH_VISUALS &&& st.clientFeaturesMask
  let flags1 :=
    if st.version > RDPINPUT_PROTOCOL_V10 then
      flags0 ||| (CS_READY_FLAGS_DISABLE_TIMESTAMP_INJECTION &&&
        st.clientFeaturesMask)
    else flags0
  let flags2 :=
    if st.features &&& SC_READY_MULTIPEN_INJECTION_SUPPORTED ≠ 0 then
      flags1 ||| (CS_READY_FLAGS_ENABLE_MULTIPEN_INJECTION &&&
        st.clientFeaturesMask)
    else flags1
  { flags := flags2, protocolVersion := st.version
    maxTouchContacts := st.maxTouchContacts }

/-! ## Projections, invariants and operation sequences used by the statements -/

/-- The identity-relevant fields of a touch slot: active flag, bound externalId
and issued slot contactId. -/
def projTouch (c : RDPINPUT_CONTACT_POINT) : Bool × Int × Nat :=
  (c.active, c.externalId, c.contactId)

/-- The identity-relevant fields of a pen slot. -/
def penProj (c : RDPINPUT_PEN_CONTACT_POINT) : Bool × Int :=
  (c.active, c.externalId)

/-- Two slots (given by their `penProj` images) respect uniqueness of active
externalIds. -/
def penDistinct (a b : Bool × Int) : Prop :=
  a.1 = true → b.1 = true → a.2 ≠ b.2

/-- The pen registry invariant: no two active slots share an externalId. -/
def PenInv (pts : List RDPINPUT_PEN_CONTACT_POINT) : Prop :=
  List.Pairwise penDistinct (pts.map penProj)

/-- The touch registry invariant behind the unchecked AddContact write: every
slot's stored contactId is a valid index of the table. -/
def touchIdInv (pts : List RDPINPUT_CONTACT_POINT) : Prop :=
  ∀ cp ∈ pts, cp.contactId < pts.length

/-- One pen-side operation: any `rdpei_pen_process` call (which covers
pen begin/update/end, the hover calls and the raw events, each being a fixed
choice of contact flags) or one pen drain. -/
inductive PEN_OP where
  | proc (externalId : Int) (contactFlags fieldFlags : Nat) (x y : Int)
      (args : PEN_ARGS)
  | drain (now writeStatus : Nat)
deriving DecidableEq, Repr

/-- Apply one pen operation to the plugin state. -/
def rdpei_pen_op_apply (st : RDPEI_PLUGIN) : PEN_OP → RDPEI_PLUGIN
  | .proc e cf ff x y args => (rdpei_pen_process st e cf ff x y args).2
  | .drain now ws => (rdpei_add_pen_frame st now ws).2.1

/-- Run a sequence of pen operations. -/
def rdpei_pen_run (st : RDPEI_PLUGIN) (ops : List PEN_OP) : RDPEI_PLUGIN :=
  ops.foldl rdpei_pen_op_apply st

/-! ## Concrete states used by the counterexamples and witnesses -/

/-- Default triple for reading off a touch event result. -/
def touchResDefault : Nat × Int × RDPEI_PLUGIN := (0, 0, rdpei_init_state true false)

/-- Step 1 of the C2 scenario: touchBegin externalId 1 (slot 0 allocated). -/
def c2_state_1 : RDPEI_PLUGIN :=
  ((rdpei_touch_begin (rdpei_init_state true false) 1 10 20).getD touchResDefault).2.2

/-- Step 2: touchBegin externalId 2 (slot 1 allocated). -/
def c2_state_2 : RDPEI_PLUGIN :=
  ((rdpei_touch_begin c2_state_1 2 30 40).getD touchResDefault).2.2

/-- Step 3: touchCancel externalId 1 (slot 0 marked UP ||| CANCELED, dirty). -/
def c2_state_3 : RDPEI_PLUGIN :=
  ((rdpei_touch_cancel c2_state_2 1 10 20).getD touchResDefault).2.2

/-- Step 4: one drain at tick 100 (slot 0 emitted with UP and released). -/
def c2_state_4 : RDPEI_PLUGIN := (rdpei_add_frame c2_state_3 100 0).2.1

/-- Step 5: touchBegin externalId 2 again, although externalId 2 is still
active in slot 1: the scan allocates the freed slot 0 first. -/
def c2_state_5 : RDPEI_PLUGIN :=
  ((rdpei_touch_begin c2_state_4 2 50 60).getD touchResDefault).2.2

/-- PenHoverBegin on a fresh registry: contact flags UPDATE ||| INRANGE carry
no DOWN bit, yet a slot is allocated. -/
def c9_state : RDPEI_PLUGIN :=
  (rdpei_pen_hover_begin (rdpei_init_state true false) 7 0 5 5 zeroPenArgs).2

/-- A full touch registry: all 64 slots active (bound to externalId 0). -/
def fullTouchState : RDPEI_PLUGIN :=
  { rdpei_init_state true false with
      contactPoints := List.replicate MAX_CONTACTS { zeroContactPoint with active := true } }

/-- One dirty active touch slot used by the suspension scenario. -/
def dirtyTouchPoint : RDPINPUT_CONTACT_POINT :=
  { active := true, dirty := true, contactId := 0, externalId := 5
    data := { zeroContactData with x := 3, y := 4, contactFlags := 25 } }

/-- One dirty active pen slot used by the suspension scenario. -/
def dirtyPenPoint : RDPINPUT_PEN_CONTACT_POINT :=
  { active := true, dirty := true, externalId := 6
    data := { zeroPenContact with x := 1, y := 2, contactFlags := 25 } }

/-- A suspended plugin holding one dirty touch contact and one dirty pen
contact, used to exercise the suspended drain paths. -/
def suspendedDirtyState : RDPEI_PLUGIN :=
  { rdpei_init_state true true with
      contactPoints := [dirtyTouchPoint]
      penContactPoints := [dirtyPenPoint] }

/-- The same plugin state with input resumed. -/
def resumedDirtyState : RDPEI_PLUGIN := { suspendedDirtyState with suspendInput := false }

/-- An active non-dirty touch slot whose stored flags still carry DOWN. -/
def downActivePoint : RDPINPUT_CONTACT_POINT :=
  { zeroContactPoint with
    active := true
    data := { zeroContactData with contactFlags := 25 } }

/-- The negotiation outcome of receiving ready-from-peer with version V10 and
features word 1 in the fresh state. -/
def c6_result : RDPEI_PLUGIN × Bool :=
  (rdpei_recv_sc_ready_pdu (rdpei_init_state true false)
    [RDPINPUT_PROTOCOL_V10, 1]).getD (rdpei_init_state true false, true)

/-- First update on the one-contact resumed state (externalId 5). -/
def c5_r1 : Nat × Int × RDPEI_PLUGIN :=
  (rdpei_touch_update resumedDirtyState 5 1 2).getD touchResDefault

/-- Second update, applied to the state the first one produced. -/
def c5_r2 : Nat × Int × RDPEI_PLUGIN :=
  (rdpei_touch_update c5_r1.2.2 5 3 4).getD touchResDefault

/-! ## Lemmas and claim theorems -/

theorem add_frame_scan_fst (pts : List RDPINPUT_CONTACT_POINT) :
    (rdpei_add_frame_scan pts).1 = pts.filterMap rdpei_frame_emit := by
  induction pts with
  | nil => rfl
  | cons cp rest ih =>
    cases h : rdpei_frame_emit cp <;>
      simp [rdpei_add_frame_scan, List.filterMap_cons, h, ih]

theorem add_frame_scan_snd (pts : List RDPINPUT_CONTACT_POINT) :
    (rdpei_add_frame_scan pts).2 = pts.map rdpei_frame_step := by
  induction pts with
  | nil => rfl
  | cons cp rest ih => simp [rdpei_add_frame_scan, ih]

theorem add_pen_frame_scan_fst (pts : List RDPINPUT_PEN_CONTACT_POINT) :
    (rdpei_add_pen_frame_scan pts).1 = pts.filterMap rdpei_pen_frame_emit := by
  induction pts with
  | nil => rfl
  | cons cp rest ih =>
    cases h : rdpei_pen_frame_emit cp <;>
      simp [rdpei_add_pen_frame_scan, List.filterMap_cons, h, ih]

theorem add_pen_frame_scan_snd (pts : List RDPINPUT_PEN_CONTACT_POINT) :
    (rdpei_add_pen_frame_scan pts).2 = pts.map rdpei_pen_frame_step := by
  induction pts with
  | nil => rfl
  | cons cp rest ih => simp [rdpei_add_pen_frame_scan, ih]

/-- C4: on every drain, each slot that is active but not dirty is re-emitted;
if its stored flags still carry DOWN they are rewritten to exactly
(UPDATE ||| INRANGE ||| INCONTACT) before emission, so an active non-dirty slot
is never emitted with DOWN; a frame is sent only if at least one contact was
emitted, and an empty drain produces no wire traffic — for both the touch and
the pen batcher. -/
theorem claim_C4 :
    (∀ pts, (rdpei_add_frame_scan pts).1 = pts.filterMap rdpei_frame_emit) ∧
    (∀ cp : RDPINPUT_CONTACT_POINT, cp.active = true → cp.dirty = false →
      ∃ d, rdpei_frame_emit cp = some d ∧
        d.contactFlags &&& RDPINPUT_CONTACT_FLAG_DOWN = 0 ∧
        (cp.data.contactFlags &&& RDPINPUT_CONTACT_FLAG_DOWN ≠ 0 →
          d.contactFlags = updateFlags)) ∧
    (∀ pts (cp : RDPINPUT_CONTACT_POINT), cp ∈ pts → cp.active = true →
      cp.dirty = false →
      ∃ d, rdpei_frame_emit cp = some d ∧ d ∈ (rdpei_add_frame_scan pts).1) ∧
    (∀ st now ws p, (rdpei_add_frame st now ws).2.2 = some p →
      (rdpei_add_frame_scan st.contactPoints).1 ≠ []) ∧
    (∀ st now ws, (rdpei_add_frame_scan st.contactPoints).1 = [] →
      rdpei_add_frame st now ws =
        (CHANNEL_RC_OK,
          { st with contactPoints := (rdpei_add_frame_scan st.contactPoints).2 },
          none)) ∧
    (∀ cp : RDPINPUT_PEN_CONTACT_POINT, cp.active = true → cp.dirty = false →
      ∃ d, rdpei_pen_frame_emit cp = some d ∧
        d.contactFlags &&& RDPINPUT_CONTACT_FLAG_DOWN = 0 ∧
        (cp.data.contactFlags &&& RDPINPUT_CONTACT_FLAG_DOWN ≠ 0 →
          d.contactFlags = updateFlags)) ∧
    (∀ st now ws p, (rdpei_add_pen_frame st now ws).2.2 = some p →
      (rdpei_add_pen_frame_scan st.penContactPoints).1 ≠ []) ∧
    (∀ st now ws, (rdpei_add_pen_frame_scan st.penContactPoints).1 = [] →
      rdpei_add_pen_frame st now ws =
        (CHANNEL_RC_OK,
          { st with penContactPoints :=
              (rdpei_add_pen_frame_scan st.penContactPoints).2 },
          none)) := by
  refine ⟨add_frame_scan_fst, ?_, ?_, ?_, ?_, ?_, ?_, ?_⟩
  · intro cp ha hd
    by_cases h : cp.data.contactFlags &&& RDPINPUT_CONTACT_FLAG_DOWN ≠ 0
    · refine ⟨{ cp.data with contactFlags := updateFlags }, ?_, ?_, ?_⟩
      · simp [rdpei_frame_emit, ha, hd, h]
      · show updateFlags &&& RDPINPUT_CONTACT_FLAG_DOWN = 0
        decide
      · intro _; rfl
    · push_neg at h
      refine ⟨cp.data, ?_, ?_, ?_⟩
      · simp [rdpei_frame_emit, ha, hd, h]
      · exact h
      · intro hc; exact absurd h hc
  · intro pts cp hmem ha hd
    by_cases h : cp.data.contactFlags &&& RDPINPUT_CONTACT_FLAG_DOWN ≠ 0
    · refine ⟨{ cp.data with contactFlags := updateFlags }, ?_, ?_⟩
      · simp [rdpei_frame_emit, ha, hd, h]
      · rw [add_frame_scan_fst]
        exact List.mem_filterMap.mpr ⟨cp, hmem, by simp [rdpei_frame_emit, ha, hd, h]⟩
    · push_neg at h
      refine ⟨cp.data, ?_, ?_⟩
      · simp [rdpei_frame_emit, ha, hd, h]
      · rw [add_frame_scan_fst]
        exact List.mem_filterMap.mpr ⟨cp, hmem, by simp [rdpei_frame_emit, ha, hd, h]⟩
  · intro st now ws p h hempty
    simp [rdpei_add_frame, hempty] at h
  · intro st now ws h
    simp [rdpei_add_frame, h]
  · intro cp ha hd
    by_cases h : cp.data.contactFlags &&& RDPINPUT_CONTACT_FLAG_DOWN ≠ 0
    · refine ⟨{ cp.data with contactFlags := updateFlags }, ?_, ?_, ?_⟩
      · simp [rdpei_pen_frame_emit, ha, hd, h]
      · show updateFlags &&& RDPINPUT_CONTACT_FLAG_DOWN = 0
        decide
      · intro _; rfl
    · push_neg at h
      refine ⟨cp.data, ?_, ?_, ?_⟩
      · simp [rdpei_pen_frame_emit, ha, hd, h]
      · exact h
      · intro hc; exact absurd h hc
  · intro st now ws p h hempty
    simp [rdpei_add_pen_frame, hempty] at h
  · intro st now ws h
    simp [rdpei_add_pen_frame, h]

/-- C4 witness: the DOWN-carrying active non-dirty slot `downActivePoint` is
emitted with flags rewritten to UPDATE ||| INRANGE ||| INCONTACT. -/
theorem claim_C4_witness :
    ∃ d, rdpei_frame_emit downActivePoint = some d ∧
      d.contactFlags &&& RDPINPUT_CONTACT_FLAG_DOWN = 0 ∧
      (downActivePoint.data.contactFlags &&& RDPINPUT_CONTACT_FLAG_DOWN ≠ 0 →
        d.contactFlags = updateFlags) :=
  claim_C4.2.1 downActivePoint (by decide) (by decide)

/-- C8: touch orientation values of 360 or more are stored as 359, pressure
above 1024 is stored as 1024 (1024 itself unchanged), pen tilt values are
clamped to the signed 16-bit range, and every touch contact serialised by
`rdpei_write_touch_frame` carries a rectangle derived as (x, y) ± 2 with each
edge clamped through `bounded` to the signed 16-bit range. -/
theorem claim_C8 :
    (∀ cid cf x y ff (args : TOUCH_ARGS),
      ff &&& CONTACT_DATA_ORIENTATION_PRESENT ≠ 0 →
      (rdpei_touch_build_contact cid cf x y ff args).orientation =
        (if args.orientation ≥ 360 then 359 else args.orientation)) ∧
    (∀ cid cf x y ff (args : TOUCH_ARGS),
      ff &&& CONTACT_DATA_PRESSURE_PRESENT ≠ 0 →
      (rdpei_touch_build_contact cid cf x y ff args).pressure =
        (if args.pressure > 1024 then 1024 else args.pressure)) ∧
    (∀ cf ff x y (args : PEN_ARGS),
      ff &&& RDPINPUT_PEN_CONTACT_TILTX_PRESENT ≠ 0 →
      (rdpei_pen_build_contact cf ff x y args).tiltX = winpr_cast_int16 args.tiltX) ∧
    (∀ cf ff x y (args : PEN_ARGS),
      ff &&& RDPINPUT_PEN_CONTACT_TILTY_PRESENT ≠ 0 →
      (rdpei_pen_build_contact cf ff x y args).tiltY = winpr_cast_int16 args.tiltY) ∧
    (∀ v, -32768 ≤ winpr_cast_int16 v ∧ winpr_cast_int16 v ≤ 32767) ∧
    (∀ frame, (rdpei_write_touch_frame frame).contacts =
      frame.contacts.map rdpei_wire_contact) ∧
    (∀ c, (rdpei_wire_contact c).contactRectLeft = bounded (c.x - 2) ∧
      (rdpei_wire_contact c).contactRectTop = bounded (c.y - 2) ∧
      (rdpei_wire_contact c).contactRectRight = bounded (c.x + 2) ∧
      (rdpei_wire_contact c).contactRectBottom = bounded (c.y + 2) ∧
      (rdpei_wire_contact c).fieldsPresent &&& CONTACT_DATA_CONTACTRECT_PRESENT ≠ 0) ∧
    (∀ v, -32768 ≤ bounded v ∧ bounded v ≤ 32767) := by
  refine ⟨?_, ?_, ?_, ?_, ?_, ?_, ?_, ?_⟩
  · intro cid cf x y ff args h
    simp [rdpei_touch_build_contact, h]
  · intro cid cf x y ff args h
    simp [rdpei_touch_build_contact, h]
  · intro cf ff x y args h
    simp [rdpei_pen_build_contact, h]
  · intro cf ff x y args h
    simp [rdpei_pen_build_contact, h]
  · intro v
    unfold winpr_cast_int16
    constructor <;> split <;> omega
  · intro frame
    rfl
  · intro c
    refine ⟨rfl, rfl, rfl, rfl, ?_⟩
    have hf : (rdpei_wire_contact c).fieldsPresent =
        c.fieldsPresent ||| 1 := rfl
    rw [hf]
    have h : (c.fieldsPresent ||| 1).testBit 0 = true := by simp [Nat.testBit_or]
    rw [Nat.testBit_zero] at h
    have h2 := of_decide_eq_true h
    have h3 : (c.fieldsPresent ||| 1) &&& 1 = (c.fieldsPresent ||| 1) % 2 :=
      Nat.and_one_is_mod _
    show (c.fieldsPresent ||| 1) &&& CONTACT_DATA_CONTACTRECT_PRESENT ≠ 0
    unfold CONTACT_DATA_CONTACTRECT_PRESENT
    omega
  · intro v
    unfold bounded
    constructor <;> split <;> omega

/-- C8 witness: orientation input 400 is stored as 359 on a patch whose
fieldsPresent carries the orientation bit. -/
theorem claim_C8_witness :
    (rdpei_touch_build_contact 0 2 0 0 CONTACT_DATA_ORIENTATION_PRESENT
        { zeroTouchArgs with orientation := 400 }).orientation =
      (if (400 : Nat) ≥ 360 then 359 else 400) :=
  claim_C8.1 0 2 0 0 CONTACT_DATA_ORIENTATION_PRESENT
    { zeroTouchArgs with orientation := 400 } (by decide)

theorem contact_loop_none_of (e : Int) (b : Bool) :
    ∀ (pts : List RDPINPUT_CONTACT_POINT) (i : Nat),
      (∀ cp ∈ pts, cp.active = true) → (∀ cp ∈ pts, cp.externalId ≠ e) →
      rdpei_contact_loop e b i pts = none := by
  intro pts
  induction pts with
  | nil => intro i _ _; rfl
  | cons cp rest ih =>
    intro i hact hext
    have ha : cp.active = true := hact cp (by simp)
    have he : cp.externalId ≠ e := hext cp (by simp)
    have ihr := ih (i + 1) (fun c hc => hact c (by simp [hc]))
      (fun c hc => hext c (by simp [hc]))
    simp [rdpei_contact_loop, ha, he, ihr]

/-- C7: when all 64 touch slots are active and none is bound to the new
externalId, a further begin obtains no slot: the event is dropped with
CHANNEL_RC_OK (no error status), the contactId output is -1, and the state —
hence all 64 existing active contacts — is unchanged. -/
theorem claim_C7 (st : RDPEI_PLUGIN) (e : Int) (x y : Int)
    (_hlen : st.contactPoints.length = MAX_CONTACTS)
    (hact : ∀ cp ∈ st.contactPoints, cp.active = true)
    (hext : ∀ cp ∈ st.contactPoints, cp.externalId ≠ e) :
    rdpei_touch_begin st e x y = some (CHANNEL_RC_OK, -1, st) := by
  have hnone : rdpei_contact_loop e false 0 st.contactPoints = none :=
    contact_loop_none_of e false st.contactPoints 0 hact hext
  have hb : (decide ((RDPINPUT_CONTACT_FLAG_DOWN ||| RDPINPUT_CONTACT_FLAG_INRANGE |||
      RDPINPUT_CONTACT_FLAG_INCONTACT) &&& RDPINPUT_CONTACT_FLAG_DOWN = 0)) = false := by
    decide
  simp [rdpei_touch_begin, rdpei_touch_process, rdpei_contact, hb, hnone]

/-- C7 witness: a registry of 64 active slots (externalId 0) drops a begin for
externalId 1. -/
theorem claim_C7_witness :
    rdpei_touch_begin fullTouchState 1 9 9 = some (CHANNEL_RC_OK, -1, fullTouchState) :=
  claim_C7 fullTouchState 1 9 9 (by decide) (by decide) (by decide)

/-- C6: on receiving ready-from-peer, the local protocol version becomes
min(local, peer), the peer features field is adopted verbatim (0 if absent),
the compatibility warning fires exactly when the peer version exceeds V300
while the clamped value is kept, and the composed ready-from-client reply
carries the negotiated (clamped) version and maxTouchContacts = 64. -/
theorem claim_C6 (st : RDPEI_PLUGIN) (peer : Nat) (rest : List Nat)
    (st2 : RDPEI_PLUGIN) (warned : Bool)
    (hmax : st.maxTouchContacts = MAX_CONTACTS)
    (h : rdpei_recv_sc_ready_pdu st (peer :: rest) = some (st2, warned)) :
    st2.version = min st.version peer ∧
    st2.features = (match rest.head? with | some f => f | none => 0) ∧
    (warned = true ↔ RDPINPUT_PROTOCOL_V300 < peer) ∧
    (rdpei_send_cs_ready_pdu st2).protocolVersion = min st.version peer ∧
    (rdpei_send_cs_ready_pdu st2).maxTouchContacts = MAX_CONTACTS := by
  simp only [rdpei_recv_sc_ready_pdu] at h
  by_cases hv : RDPINPUT_PROTOCOL_V300 ≤ peer ∧ rest = []
  · simp [hv] at h
  · rw [if_neg hv, Option.some_inj] at h
    have hst := congrArg Prod.fst h
    have hw := (congrArg Prod.snd h).symm
    simp only at hst hw
    subst hst
    by_cases hgt : st.version > peer
    · refine ⟨?_, ?_, ?_, ?_, ?_⟩
      · simp only [if_pos hgt]
        omega
      · rfl
      · rw [hw]
        simp [RDPINPUT_PROTOCOL_V300]
      · simp only [rdpei_send_cs_ready_pdu, if_pos hgt]
        omega
      · simp only [rdpei_send_cs_ready_pdu, if_pos hgt]
        exact hmax
    · refine ⟨?_, ?_, ?_, ?_, ?_⟩
      · simp only [if_neg hgt]
        omega
      · rfl
      · rw [hw]
        simp [RDPINPUT_PROTOCOL_V300]
      · simp only [rdpei_send_cs_ready_pdu, if_neg hgt]
        omega
      · simp only [rdpei_send_cs_ready_pdu, if_neg hgt]
        exact hmax

/-- C6 witness: a peer advertising version V10 with features word 1 clamps the
local V300 down to V10, adopts the features, and the reply carries 64 contacts. -/
theorem claim_C6_witness :
    c6_result.1.version =
      min (rdpei_init_state true false).version RDPINPUT_PROTOCOL_V10 ∧
    c6_result.1.features = 1 ∧
    (rdpei_send_cs_ready_pdu c6_result.1).maxTouchContacts = MAX_CONTACTS :=
  have h : rdpei_recv_sc_ready_pdu (rdpei_init_state true false)
      [RDPINPUT_PROTOCOL_V10, 1] = some (c6_result.1, c6_result.2) := rfl
  have hc := claim_C6 (rdpei_init_state true false) RDPINPUT_PROTOCOL_V10 [1]
    c6_result.1 c6_result.2 rfl h
  ⟨hc.1, hc.2.1, hc.2.2.2.2⟩

theorem updateFlags_and_down :
    (RDPINPUT_CONTACT_FLAG_UPDATE ||| RDPINPUT_CONTACT_FLAG_INRANGE |||
      RDPINPUT_CONTACT_FLAG_INCONTACT) &&& RDPINPUT_CONTACT_FLAG_DOWN = 0 := by
  decide

theorem sub64_eq (a b : Nat) (hba : b ≤ a) (ha : a < two64) :
    sub64 a b = a - b := by
  unfold sub64 two64 at *
  omega

theorem list_set_self {α : Type} (l : List α) (n : Nat) (a : α)
    (h : l[n]? = some a) : l.set n a = l := by
  apply List.ext_getElem?
  intro m
  by_cases hm : m = n
  · subst hm
    rw [List.getElem?_set_self (List.getElem?_eq_some.mp h).1]
    exact h.symm
  · exact List.getElem?_set_ne (Ne.symm hm)

/-- C1: while the host inputSuspended flag is set, the touch and pen send paths
return success without transmitting anything, and whole drains succeed with no
wire traffic; touch updates keep marking the registry dirty with the latest
coordinates regardless of the flag; and once the flag is clear, the next drain
transmits exactly the current accumulated registry state. -/
theorem claim_C1 :
    (∀ st frame ws, st.suspendInput = true →
      rdpei_send_touch_event_pdu st frame ws = (CHANNEL_RC_OK, none)) ∧
    (∀ st now contacts ws, st.suspendInput = true →
      rdpei_send_pen_frame st now contacts ws = (CHANNEL_RC_OK, st, none)) ∧
    (∀ st now ws, st.suspendInput = true →
      (rdpei_add_frame st now ws).1 = CHANNEL_RC_OK ∧
      (rdpei_add_frame st now ws).2.2 = none ∧
      (rdpei_add_pen_frame st now ws).1 = CHANNEL_RC_OK ∧
      (rdpei_add_pen_frame st now ws).2.2 = none) ∧
    (∀ st e x y r, rdpei_touch_update st e x y = some r → r.2.1 ≠ -1 →
      ∃ (i : Nat) (q : RDPINPUT_CONTACT_POINT),
        r.2.2.contactPoints[i]? = some q ∧ q.dirty = true ∧
        q.data.x = x ∧ q.data.y = y) ∧
    (∀ st now, st.suspendInput = false → st.channelConnected = true →
      (rdpei_add_frame_scan st.contactPoints).1 ≠ [] →
      ∃ p, (rdpei_add_frame st now 0).2.2 = some p ∧
        p.frame.contacts =
          ((rdpei_add_frame_scan st.contactPoints).1).map rdpei_wire_contact) := by
  refine ⟨?_, ?_, ?_, ?_, ?_⟩
  · intro st frame ws h
    simp [rdpei_send_touch_event_pdu, h]
  · intro st now contacts ws h
    simp [rdpei_send_pen_frame, h]
  · intro st now ws h
    refine ⟨?_, ?_, ?_, ?_⟩
    · simp only [rdpei_add_frame]
      split
      · simp [rdpei_send_frame, rdpei_send_touch_event_pdu, h, CHANNEL_RC_OK]
        split <;> simp
      · rfl
    · simp only [rdpei_add_frame]
      split
      · simp [rdpei_send_frame, rdpei_send_touch_event_pdu, h, CHANNEL_RC_OK]
        split <;> simp
      · rfl
    · simp only [rdpei_add_pen_frame]
      split
      · simp [rdpei_send_pen_frame, h]
      · rfl
    · simp only [rdpei_add_pen_frame]
      split
      · simp [rdpei_send_pen_frame, h]
      · rfl
  · intro st e x y r h hne
    simp only [rdpei_touch_update, rdpei_touch_process, updateFlags_and_down] at h
    split at h
    · rename_i heq
      rw [Option.some_inj] at h
      rw [← h] at hne
      simp at hne
    · rename_i j cp pts1 heq
      split at h
      · exact absurd h (by simp)
      · rename_i pts2 hadd
        rw [Option.some_inj] at h
        subst h
        simp only [rdpei_add_contact] at hadd
        split at hadd
        · exact absurd hadd (by simp)
        · rename_i old hold
          rw [Option.some_inj] at hadd
          refine ⟨cp.contactId,
            { old with
                data := rdpei_touch_build_contact cp.contactId
                  (RDPINPUT_CONTACT_FLAG_UPDATE ||| RDPINPUT_CONTACT_FLAG_INRANGE |||
                    RDPINPUT_CONTACT_FLAG_INCONTACT) x y 0 zeroTouchArgs
                dirty := true }, ?_, rfl, rfl, rfl⟩
          simp only
          rw [← hadd]
          exact List.getElem?_set_self (List.getElem?_eq_some.mp hold).1
  · intro st now hns hconn hne
    simp only [rdpei_add_frame]
    split
    · simp [rdpei_send_frame, rdpei_send_touch_event_pdu, rdpei_write_touch_frame,
        hconn, hns, CHANNEL_RC_OK]
    · rename_i hlen
      exact absurd (List.length_pos.mpr hne) hlen

/-- C1 witness: in the suspended plugin with a dirty contact, a drain at tick 50
succeeds with no touch and no pen traffic. -/
theorem claim_C1_witness :
    (rdpei_add_frame suspendedDirtyState 50 0).1 = CHANNEL_RC_OK ∧
    (rdpei_add_frame suspendedDirtyState 50 0).2.2 = none ∧
    (rdpei_add_pen_frame suspendedDirtyState 50 0).1 = CHANNEL_RC_OK ∧
    (rdpei_add_pen_frame suspendedDirtyState 50 0).2.2 = none :=
  claim_C1.2.2.1 suspendedDirtyState 50 0 rfl

/-- C3: for every sent touch frame the wire frameOffset is the elapsed
milliseconds since the previous successful send times 1000 (microseconds), and
zero for the first frame ever; the previous-frame timestamp advances to `now`
exactly on a successful send and stays put when the transport write fails, so
with a monotone clock the frame timestamps are non-decreasing and offsets are
measured from the last successfully sent frame, not the last attempt. -/
theorem claim_C3 (st : RDPEI_PLUGIN) (now : Nat) (frame : RDPINPUT_TOUCH_FRAME)
    (ws : Nat) (hconn : st.channelConnected = true)
    (hns : st.suspendInput = false) :
    (st.previousFrameTime = 0 ∧ st.currentFrameTime = 0 →
      ∀ p, (rdpei_send_frame st now frame ws).2.2 = some p →
        p.frame.frameOffsetMicroseconds = 0) ∧
    (¬(st.previousFrameTime = 0 ∧ st.currentFrameTime = 0) →
      st.previousFrameTime ≤ now → now < two64 →
      (now - st.previousFrameTime) * 1000 < two64 →
      ∀ p, (rdpei_send_frame st now frame ws).2.2 = some p →
        p.frame.frameOffsetMicroseconds = (now - st.previousFrameTime) * 1000) ∧
    (ws = 0 → ((rdpei_send_frame st now frame ws).2.2).isSome = true ∧
      (rdpei_send_frame st now frame ws).2.1.previousFrameTime = now) ∧
    (ws ≠ 0 →
      (rdpei_send_frame st now frame ws).2.1.previousFrameTime =
        st.previousFrameTime) ∧
    ((rdpei_send_frame st now frame ws).2.1.currentFrameTime = now) ∧
    (st.previousFrameTime ≤ now →
      st.previousFrameTime ≤
        (rdpei_send_frame st now frame ws).2.1.previousFrameTime) := by
  by_cases hz : st.previousFrameTime = 0 ∧ st.currentFrameTime = 0
  · by_cases hws : ws = 0
    · subst hws
      refine ⟨?_, ?_, ?_, ?_, ?_, ?_⟩
      · intro _ p hp
        simp [rdpei_send_frame, rdpei_send_touch_event_pdu,
          rdpei_write_touch_frame, hconn, hns, hz, CHANNEL_RC_OK] at hp
        rw [← hp]
      · intro hnz
        exact absurd hz hnz
      · intro _
        simp [rdpei_send_frame, rdpei_send_touch_event_pdu, hconn, hns, hz,
          CHANNEL_RC_OK]
      · intro hws2
        exact absurd rfl hws2
      · simp [rdpei_send_frame, rdpei_send_touch_event_pdu, hconn, hns, hz,
          CHANNEL_RC_OK]
      · intro hle
        simp [rdpei_send_frame, rdpei_send_touch_event_pdu, hconn, hns, hz,
          CHANNEL_RC_OK]
    · refine ⟨?_, ?_, ?_, ?_, ?_, ?_⟩
      · intro _ p hp
        simp [rdpei_send_frame, rdpei_send_touch_event_pdu, hconn, hns, hz,
          CHANNEL_RC_OK, hws] at hp
      · intro hnz
        exact absurd hz hnz
      · intro hws2
        exact absurd hws2 hws
      · intro _
        simp [rdpei_send_frame, rdpei_send_touch_event_pdu, hconn, hns, hz,
          CHANNEL_RC_OK, hws]
      · simp [rdpei_send_frame, rdpei_send_touch_event_pdu, hconn, hns, hz,
          CHANNEL_RC_OK, hws]
      · intro _
        simp [rdpei_send_frame, rdpei_send_touch_event_pdu, hconn, hns, hz,
          CHANNEL_RC_OK, hws]
  · by_cases hws : ws = 0
    · subst hws
      refine ⟨?_, ?_, ?_, ?_, ?_, ?_⟩
      · intro hzz
        exact absurd hzz hz
      · intro _ hle hlt hprod p hp
        simp [rdpei_send_frame, rdpei_send_touch_event_pdu,
          rdpei_write_touch_frame, hconn, hns, hz, CHANNEL_RC_OK] at hp
        rw [← hp]
        show sub64 now st.previousFrameTime * 1000 % two64 =
          (now - st.previousFrameTime) * 1000
        rw [sub64_eq now st.previousFrameTime hle hlt]
        exact Nat.mod_eq_of_lt hprod
      · intro _
        simp [rdpei_send_frame, rdpei_send_touch_event_pdu, hconn, hns, hz,
          CHANNEL_RC_OK]
      · intro hws2
        exact absurd rfl hws2
      · simp [rdpei_send_frame, rdpei_send_touch_event_pdu, hconn, hns, hz,
          CHANNEL_RC_OK]
      · intro hle
        simp [rdpei_send_frame, rdpei_send_touch_event_pdu, hconn, hns, hz,
          CHANNEL_RC_OK]
        exact hle
    · refine ⟨?_, ?_, ?_, ?_, ?_, ?_⟩
      · intro hzz
        exact absurd hzz hz
      · intro _ _ _ _ p hp
        simp [rdpei_send_frame, rdpei_send_touch_event_pdu, hconn, hns, hz,
          CHANNEL_RC_OK, hws] at hp
      · intro hws2
        exact absurd hws2 hws
      · intro _
        simp [rdpei_send_frame, rdpei_send_touch_event_pdu, hconn, hns, hz,
          CHANNEL_RC_OK, hws]
      · simp [rdpei_send_frame, rdpei_send_touch_event_pdu, hconn, hns, hz,
          CHANNEL_RC_OK, hws]
      · intro _
        simp [rdpei_send_frame, rdpei_send_touch_event_pdu, hconn, hns, hz,
          CHANNEL_RC_OK, hws]

/-- C3 witness: from a state whose previous send happened at tick 500, a send
at tick 750 writes a 250000 microsecond wire offset (and timestamps advance). -/
theorem claim_C3_witness :
    ¬((250 : Nat) = 0 ∧ (500 : Nat) = 0) ∧
    (∀ p, (rdpei_send_frame
        { rdpei_init_state true false with
            previousFrameTime := 500, currentFrameTime := 500 } 750
        { frameOffset := 0, contacts := [zeroContactData] } 0).2.2 = some p →
      p.frame.frameOffsetMicroseconds = (750 - 500) * 1000) := by
  constructor
  · decide
  · have hc := claim_C3
      { rdpei_init_state true false with
          previousFrameTime := 500, currentFrameTime := 500 } 750
      { frameOffset := 0, contacts := [zeroContactData] } 0 rfl rfl
    exact hc.2.1 (by decide) (by decide) (by decide) (by decide)

theorem contact_loop_shape (e : Int) (b : Bool) :
    ∀ (pts : List RDPINPUT_CONTACT_POINT) (i j : Nat)
      (cp2 : RDPINPUT_CONTACT_POINT) (pts2 : List RDPINPUT_CONTACT_POINT),
      rdpei_contact_loop e b i pts = some (j, cp2, pts2) →
      (∃ k, pts[k]? = some cp2 ∧ cp2.active = true ∧ cp2.externalId = e ∧
        j = i + k ∧ pts2 = pts) ∨
      (∃ k old, pts[k]? = some old ∧ old.active = false ∧ b = false ∧
        j = i + k ∧
        cp2 = { old with contactId := j, externalId := e, active := true } ∧
        pts2 = pts.set k cp2) := by
  intro pts
  induction pts with
  | nil =>
    intro i j cp2 pts2 h
    exact absurd h (by simp [rdpei_contact_loop])
  | cons cp rest ih =>
    intro i j cp2 pts2 h
    simp only [rdpei_contact_loop] at h
    by_cases h1 : cp.active = false ∧ b = true
    · rw [if_pos h1] at h
      cases hr : rdpei_contact_loop e b (i + 1) rest with
      | none => rw [hr] at h; exact absurd h (by simp)
      | some t =>
        obtain ⟨j2, r, rest2⟩ := t
        rw [hr] at h
        simp only [Option.some_inj, Prod.mk.injEq] at h
        obtain ⟨rfl, rfl, rfl⟩ := h
        rcases ih (i + 1) j2 r rest2 hr with
          ⟨k, hk, hact, hext, hj, hrest⟩ | ⟨k, old, hk, hold, hb, hj, hcp2, hset⟩
        · left
          exact ⟨k + 1, by simpa using hk, hact, hext, by omega, by rw [hrest]⟩
        · right
          refine ⟨k + 1, old, by simpa using hk, hold, hb, by omega, ?_, ?_⟩
          · rw [hcp2]
          · rw [List.set_cons_succ, hset]
    · rw [if_neg h1] at h
      by_cases h2 : cp.active = false ∧ b = false
      · rw [if_pos h2] at h
        simp only [Option.some_inj, Prod.mk.injEq] at h
        obtain ⟨rfl, rfl, rfl⟩ := h
        right
        exact ⟨0, cp, by simp, h2.1, h2.2, by omega, rfl, by simp⟩
      · rw [if_neg h2] at h
        have hact : cp.active = true := by
          cases b with
          | false =>
            cases hca : cp.active with
            | false => exact absurd ⟨hca, rfl⟩ h2
            | true => rfl
          | true =>
            cases hca : cp.active with
            | false => exact absurd ⟨hca, rfl⟩ h1
            | true => rfl
        by_cases h3 : cp.externalId = e
        · rw [if_pos h3] at h
          simp only [Option.some_inj, Prod.mk.injEq] at h
          obtain ⟨rfl, rfl, rfl⟩ := h
          left
          exact ⟨0, by simp, hact, h3, by omega, rfl⟩
        · rw [if_neg h3] at h
          cases hr : rdpei_contact_loop e b (i + 1) rest with
          | none => rw [hr] at h; exact absurd h (by simp)
          | some t =>
            obtain ⟨j2, r, rest2⟩ := t
            rw [hr] at h
            simp only [Option.some_inj, Prod.mk.injEq] at h
            obtain ⟨rfl, rfl, rfl⟩ := h
            rcases ih (i + 1) j2 r rest2 hr with
              ⟨k, hk, hact2, hext, hj, hrest⟩ |
              ⟨k, old, hk, hold, hb, hj, hcp2, hset⟩
            · left
              exact ⟨k + 1, by simpa using hk, hact2, hext, by omega, by rw [hrest]⟩
            · right
              refine ⟨k + 1, old, by simpa using hk, hold, hb, by omega, ?_, ?_⟩
              · rw [hcp2]
              · rw [List.set_cons_succ, hset]

theorem pen_loop_shape (e : Int) (b : Bool) :
    ∀ (pts : List RDPINPUT_PEN_CONTACT_POINT) (i j : Nat)
      (cp2 : RDPINPUT_PEN_CONTACT_POINT)
      (pts2 : List RDPINPUT_PEN_CONTACT_POINT),
      rdpei_pen_contact_loop e b i pts = some (j, cp2, pts2) →
      (b = true ∧ ∃ k, pts[k]? = some cp2 ∧ cp2.active = true ∧
        cp2.externalId = e ∧ j = i + k ∧ pts2 = pts) ∨
      (b = false ∧ ∃ k old, pts[k]? = some old ∧ old.active = false ∧
        j = i + k ∧ cp2 = { old with externalId := e, active := true } ∧
        pts2 = pts.set k cp2) := by
  intro pts
  induction pts with
  | nil =>
    intro i j cp2 pts2 h
    exact absurd h (by simp [rdpei_pen_contact_loop])
  | cons cp rest ih =>
    intro i j cp2 pts2 h
    simp only [rdpei_pen_contact_loop] at h
    cases b with
    | true =>
      rw [if_pos rfl] at h
      by_cases h1 : cp.active = true ∧ cp.externalId = e
      · rw [if_pos h1] at h
        simp only [Option.some_inj, Prod.mk.injEq] at h
        obtain ⟨rfl, rfl, rfl⟩ := h
        left
        exact ⟨rfl, 0, by simp, h1.1, h1.2, by omega, rfl⟩
      · rw [if_neg ?_] at h
        · cases hr : rdpei_pen_contact_loop e true (i + 1) rest with
          | none => rw [hr] at h; exact absurd h (by simp)
          | some t =>
            obtain ⟨j2, r, rest2⟩ := t
            rw [hr] at h
            simp only [Option.some_inj, Prod.mk.injEq] at h
            obtain ⟨rfl, rfl, rfl⟩ := h
            rcases ih (i + 1) j2 r rest2 hr with
              ⟨_, k, hk, hact, hext, hj, hrest⟩ | ⟨hb, _⟩
            · left
              exact ⟨rfl, k + 1, by simpa using hk, hact, hext, by omega,
                by rw [hrest]⟩
            · exact absurd hb (by simp)
        · intro hc
          exact h1 ⟨hc.1, hc.2⟩
    | false =>
      rw [if_neg (by simp)] at h
      by_cases h1 : cp.active = false
      · rw [if_pos h1] at h
        simp only [Option.some_inj, Prod.mk.injEq] at h
        obtain ⟨rfl, rfl, rfl⟩ := h
        right
        exact ⟨rfl, 0, cp, by simp, h1, by omega, rfl, by simp⟩
      · rw [if_neg h1] at h
        cases hr : rdpei_pen_contact_loop e false (i + 1) rest with
        | none => rw [hr] at h; exact absurd h (by simp)
        | some t =>
          obtain ⟨j2, r, rest2⟩ := t
          rw [hr] at h
          simp only [Option.some_inj, Prod.mk.injEq] at h
          obtain ⟨rfl, rfl, rfl⟩ := h
          rcases ih (i + 1) j2 r rest2 hr with
            ⟨hb, _⟩ | ⟨_, k, old, hk, hold, hj, hcp2, hset⟩
          · exact absurd hb (by simp)
          · right
            refine ⟨rfl, k + 1, old, by simpa using hk, hold, by omega, ?_, ?_⟩
            · rw [hcp2]
            · rw [List.set_cons_succ, hset]


theorem pen_loop_true_none (e : Int) :
    ∀ (pts : List RDPINPUT_PEN_CONTACT_POINT) (i : Nat),
      rdpei_pen_contact_loop e true i pts = none →
      ∀ cp ∈ pts, cp.active = true → cp.externalId ≠ e := by
  intro pts
  induction pts with
  | nil => intro i _ cp hm; simp at hm
  | cons cp rest ih =>
    intro i h c hm
    simp only [rdpei_pen_contact_loop, if_true] at h
    by_cases h1 : cp.active = true ∧ cp.externalId = e
    · rw [if_pos h1] at h
      simp at h
    · rw [if_neg h1] at h
      cases hr : rdpei_pen_contact_loop e true (i + 1) rest with
      | none =>
        rcases List.mem_cons.mp hm with rfl | hmr
        · intro hact hext
          exact h1 ⟨hact, hext⟩
        · exact ih (i + 1) hr c hmr
      | some t => rw [hr] at h; simp at h

theorem pen_loop_true_none_of (e : Int) :
    ∀ (pts : List RDPINPUT_PEN_CONTACT_POINT) (i : Nat),
      (∀ cp ∈ pts, cp.active = true → cp.externalId ≠ e) →
      rdpei_pen_contact_loop e true i pts = none := by
  intro pts
  induction pts with
  | nil => intro i _; rfl
  | cons cp rest ih =>
    intro i hno
    have h1 : ¬(cp.active = true ∧ cp.externalId = e) := by
      intro hc
      exact hno cp (by simp) hc.1 hc.2
    simp only [rdpei_pen_contact_loop, if_true]
    rw [if_neg h1, ih (i + 1) (fun c hc => hno c (by simp [hc]))]

theorem pen_loop_false_isSome (e : Int) :
    ∀ (pts : List RDPINPUT_PEN_CONTACT_POINT) (i : Nat),
      (∃ cp ∈ pts, cp.active = false) →
      (rdpei_pen_contact_loop e false i pts).isSome = true := by
  intro pts
  induction pts with
  | nil => intro i h; simp at h
  | cons cp rest ih =>
    intro i h
    simp only [rdpei_pen_contact_loop, Bool.false_eq_true, if_false]
    by_cases h1 : cp.active = false
    · rw [if_pos h1]
      rfl
    · rw [if_neg h1]
      obtain ⟨c, hm, hc⟩ := h
      rcases List.mem_cons.mp hm with rfl | hmr
      · exact absurd hc h1
      · cases hr : rdpei_pen_contact_loop e false (i + 1) rest with
        | none =>
          have hs := ih (i + 1) ⟨c, hmr, hc⟩
          rw [hr] at hs
          simp at hs
        | some t => simp [hr]

theorem pen_loop_true_isSome (e : Int) :
    ∀ (pts : List RDPINPUT_PEN_CONTACT_POINT) (i : Nat),
      (∃ cp ∈ pts, cp.active = true ∧ cp.externalId = e) →
      (rdpei_pen_contact_loop e true i pts).isSome = true := by
  intro pts i h
  cases hr : rdpei_pen_contact_loop e true i pts with
  | none =>
    obtain ⟨c, hm, ha, he⟩ := h
    exact absurd he (pen_loop_true_none e pts i hr c hm ha)
  | some t => rfl

theorem pairwise_set {α : Type} {R : α → α → Prop} :
    ∀ (l : List α) (k : Nat) (v : α), List.Pairwise R l →
      (∀ b ∈ l, R v b) → (∀ b ∈ l, R b v) → List.Pairwise R (l.set k v) := by
  intro l
  induction l with
  | nil => intro k v _ _ _; simp
  | cons a tail ih =>
    intro k v hp h1 h2
    cases k with
    | zero =>
      simp only [List.set_cons_zero]
      exact List.Pairwise.cons (fun b hb => h1 b (by simp [hb])) hp.tail
    | succ k =>
      simp only [List.set_cons_succ]
      refine List.Pairwise.cons ?_ (ih k v hp.tail
        (fun b hb => h1 b (by simp [hb])) (fun b hb => h2 b (by simp [hb])))
      intro b hb
      rcases List.mem_or_eq_of_mem_set hb with hbt | rfl
      · exact List.rel_of_pairwise_cons hp hbt
      · exact h2 a (by simp)

theorem pen_step_active (cp : RDPINPUT_PEN_CONTACT_POINT)
    (h : (rdpei_pen_frame_step cp).active = true) :
    cp.active = true ∧ (rdpei_pen_frame_step cp).externalId = cp.externalId := by
  unfold rdpei_pen_frame_step at *
  split_ifs at h ⊢ <;>
    simp_all [updateFlags, RDPINPUT_CONTACT_FLAG_UPDATE,
      RDPINPUT_CONTACT_FLAG_INRANGE, RDPINPUT_CONTACT_FLAG_INCONTACT,
      RDPINPUT_CONTACT_FLAG_CANCELED] <;>
    split_ifs at h ⊢ <;> simp_all

theorem add_pen_proj (pts : List RDPINPUT_PEN_CONTACT_POINT) (e : Int)
    (c : RDPINPUT_PEN_CONTACT) :
    (rdpei_add_pen pts e c).map penProj = pts.map penProj := by
  unfold rdpei_add_pen rdpei_pen_contact
  cases hr : rdpei_pen_contact_loop e true 0 pts with
  | none => rfl
  | some t =>
    obtain ⟨j, cp, pts2⟩ := t
    rcases pen_loop_shape e true pts 0 j cp pts2 hr with
      ⟨_, k, hk, _, _, hj, _⟩ | ⟨hb, _⟩
    · simp only
      rw [List.map_set]
      have hproj : penProj { cp with data := c, dirty := true } = penProj cp := rfl
      rw [hproj]
      apply list_set_self
      have hjk : j = k := by omega
      subst hjk
      rw [List.getElem?_map, hk]
      rfl
    · exact absurd hb (by simp)

/-- The pen registry of the state returned by `rdpei_pen_process`. -/
theorem pen_process_points (st : RDPEI_PLUGIN) (e : Int) (cf ff : Nat)
    (x y : Int) (args : PEN_ARGS) (hinv : PenInv st.penContactPoints) :
    PenInv ((rdpei_pen_process st e cf ff x y args).2).penContactPoints := by
  unfold rdpei_pen_process
  simp only
  cases hr : rdpei_pen_contact_loop e true 0 st.penContactPoints with
  | some t =>
    obtain ⟨j, cp, pts2⟩ := t
    rcases pen_loop_shape e true st.penContactPoints 0 j cp pts2 hr with
      ⟨_, k, hk, _, _, hj, hpts⟩ | ⟨hb, _⟩
    · subst hpts
      simp only [rdpei_pen_contact, hr]
      show PenInv (rdpei_add_pen st.penContactPoints e _)
      unfold PenInv
      rw [add_pen_proj]
      exact hinv
    · exact absurd hb (by simp)
  | none =>
    simp only [rdpei_pen_contact, hr]
    by_cases hm : cf &&& RDPINPUT_CONTACT_FLAG_INRANGE = RDPINPUT_CONTACT_FLAG_INRANGE
    · rw [if_pos hm]
      cases ha : rdpei_pen_contact_loop e false 0 st.penContactPoints with
      | none => exact hinv
      | some t =>
        obtain ⟨j, cp2, pts2⟩ := t
        rcases pen_loop_shape e false st.penContactPoints 0 j cp2 pts2 ha with
          ⟨hb, _⟩ | ⟨_, k, old, hk, hold, hj, hcp2, hset⟩
        · exact absurd hb (by simp)
        · simp only
          show PenInv (rdpei_add_pen pts2 e _)
          unfold PenInv
          rw [add_pen_proj]
          have hnoact := pen_loop_true_none e st.penContactPoints 0 hr
          subst hset
          rw [List.map_set]
          have hproj : penProj cp2 = (true, e) := by rw [hcp2]; rfl
          rw [hproj]
          refine pairwise_set (st.penContactPoints.map penProj) k (true, e) hinv ?_ ?_
          · intro b hb
            obtain ⟨cb, hcb, rfl⟩ := List.mem_map.mp hb
            intro _ hbact
            have := hnoact cb hcb hbact
            simp only [penProj]
            intro hee
            exact this hee.symm
          · intro b hb
            obtain ⟨cb, hcb, rfl⟩ := List.mem_map.mp hb
            intro hbact _
            exact fun hee => (hnoact cb hcb hbact) hee
    · rw [if_neg hm]
      exact hinv

theorem pen_drain_points (st : RDPEI_PLUGIN) (now ws : Nat) :
    (rdpei_add_pen_frame st now ws).2.1.penContactPoints =
      (rdpei_add_pen_frame_scan st.penContactPoints).2 := by
  unfold rdpei_add_pen_frame
  simp only
  split
  · unfold rdpei_send_pen_frame
    dsimp only
    split_ifs <;> rfl
  · rfl

theorem pen_step_inv (pts : List RDPINPUT_PEN_CONTACT_POINT)
    (h : PenInv pts) : PenInv (pts.map rdpei_pen_frame_step) := by
  unfold PenInv at *
  rw [List.map_map, List.pairwise_map]
  rw [List.pairwise_map] at h
  refine h.imp ?_
  intro a b hab h1 h2
  obtain ⟨ha, hea⟩ := pen_step_active a h1
  obtain ⟨hb, heb⟩ := pen_step_active b h2
  show (rdpei_pen_frame_step a).externalId ≠ (rdpei_pen_frame_step b).externalId
  rw [hea, heb]
  exact hab ha hb

theorem pen_run_inv (ops : List PEN_OP) :
    ∀ st, PenInv st.penContactPoints →
      PenInv (rdpei_pen_run st ops).penContactPoints := by
  induction ops with
  | nil => intro st h; exact h
  | cons op rest ih =>
    intro st h
    show PenInv (rdpei_pen_run (rdpei_pen_op_apply st op) rest).penContactPoints
    apply ih
    cases op with
    | proc e cf ff x y args => exact pen_process_points st e cf ff x y args h
    | drain now ws =>
      show PenInv (rdpei_add_pen_frame st now ws).2.1.penContactPoints
      rw [pen_drain_points, add_pen_frame_scan_snd]
      exact pen_step_inv st.penContactPoints h

theorem contact_loop_true_eq (e : Int) (pts : List RDPINPUT_CONTACT_POINT)
    (i j : Nat) (cp2 : RDPINPUT_CONTACT_POINT)
    (pts2 : List RDPINPUT_CONTACT_POINT)
    (h : rdpei_contact_loop e true i pts = some (j, cp2, pts2)) : pts2 = pts := by
  rcases contact_loop_shape e true pts i j cp2 pts2 h with
    ⟨k, _, _, _, _, hp⟩ | ⟨_, _, _, _, hb, _⟩
  · exact hp
  · exact absurd hb (by simp)

theorem contact_loop_all_active (e : Int) :
    ∀ (pts : List RDPINPUT_CONTACT_POINT) (i : Nat),
      (∀ cp ∈ pts, cp.active = true) →
      rdpei_contact_loop e false i pts = rdpei_contact_loop e true i pts := by
  intro pts
  induction pts with
  | nil => intro i _; rfl
  | cons cp rest ih =>
    intro i hact
    have ha : cp.active = true := hact cp (by simp)
    by_cases h3 : cp.externalId = e <;>
      simp [rdpei_contact_loop, ha, h3,
        ih (i + 1) (fun c hc => hact c (by simp [hc]))]

/-- C2 counterexample: from a fresh registry, touchBegin 1; touchBegin 2;
touchCancel 1; drain; touchBegin 2 leaves slots 0 and 1 both active and both
bound to externalId 2, so the touch registry violates the claimed invariant. -/
theorem claim_C2_counterexample :
    (c2_state_5.contactPoints.getD 0 zeroContactPoint).active = true ∧
    (c2_state_5.contactPoints.getD 0 zeroContactPoint).externalId = 2 ∧
    (c2_state_5.contactPoints.getD 1 zeroContactPoint).active = true ∧
    (c2_state_5.contactPoints.getD 1 zeroContactPoint).externalId = 2 := by
  decide

/-- C2 amended: the pen registry does keep at most one active slot per
externalId under every sequence of pen operations and drains, starting from the
initial state; the touch registry only guarantees that an active lookup never
mutates the table and that a begin behaves as a pure lookup when no inactive
slot precedes the match (for instance when every slot is active) — a begin for
an already-active externalId can otherwise allocate a second slot
(see the counterexample). -/
theorem claim_C2 :
    PenInv (rdpei_init_state true false).penContactPoints ∧
    (∀ st ops, PenInv st.penContactPoints →
      PenInv (rdpei_pen_run st ops).penContactPoints) ∧
    (∀ (pts : List RDPINPUT_CONTACT_POINT) (e : Int),
      (∀ cp ∈ pts, cp.active = true) →
      rdpei_contact pts e false = rdpei_contact pts e true) ∧
    (∀ (pts : List RDPINPUT_CONTACT_POINT) (e : Int) j cp2 pts2,
      rdpei_contact pts e true = some (j, cp2, pts2) → pts2 = pts) := by
  refine ⟨?_, ?_, ?_, ?_⟩
  · unfold PenInv rdpei_init_state MAX_PEN_CONTACTS
    simp [List.replicate, List.pairwise_cons, penDistinct, penProj,
      zeroPenContactPoint]
  · intro st ops h
    exact pen_run_inv ops st h
  · intro pts e hact
    exact contact_loop_all_active e pts 0 hact
  · intro pts e j cp2 pts2 h
    exact contact_loop_true_eq e pts 0 j cp2 pts2 h

/-- C2 witness: a pen begin followed by a drain keeps the pen invariant. -/
theorem claim_C2_witness :
    PenInv (rdpei_pen_run (rdpei_init_state true false)
      [PEN_OP.proc 1 25 0 0 0 zeroPenArgs, PEN_OP.drain 10 0]).penContactPoints :=
  claim_C2.2.1 (rdpei_init_state true false)
    [PEN_OP.proc 1 25 0 0 0 zeroPenArgs, PEN_OP.drain 10 0] claim_C2.1

theorem add_contact_proj (pts : List RDPINPUT_CONTACT_POINT)
    (c : RDPINPUT_CONTACT_DATA) (pts2 : List RDPINPUT_CONTACT_POINT)
    (h : rdpei_add_contact pts c = some pts2) :
    pts2.map projTouch = pts.map projTouch := by
  unfold rdpei_add_contact at h
  split at h
  · simp at h
  · rename_i old ho
    rw [Option.some_inj] at h
    subst h
    rw [List.map_set]
    have hp : projTouch { old with data := c, dirty := true } = projTouch old := rfl
    rw [hp]
    apply list_set_self
    rw [List.getElem?_map, ho]
    rfl

theorem touch_process_proj (st : RDPEI_PLUGIN) (e : Int) (flags : Nat)
    (x y : Int) (ff : Nat) (args : TOUCH_ARGS) (r : Nat × Int × RDPEI_PLUGIN)
    (hflags : flags &&& RDPINPUT_CONTACT_FLAG_DOWN = 0)
    (h : rdpei_touch_process st e flags x y ff args = some r) :
    r.2.2.contactPoints.map projTouch = st.contactPoints.map projTouch := by
  unfold rdpei_touch_process at h
  simp only [hflags] at h
  split at h
  · rw [Option.some_inj] at h
    subst h
    rfl
  · rename_i j cp pts1 heq
    have hpts1 : pts1 = st.contactPoints :=
      contact_loop_true_eq e st.contactPoints 0 j cp pts1 heq
    split at h
    · simp at h
    · rename_i pts2 hadd
      rw [Option.some_inj] at h
      subst h
      simp only
      rw [add_contact_proj pts1 _ pts2 hadd, hpts1]

/-- C9 counterexample: penHoverBegin carries UPDATE ||| INRANGE — no DOWN
flag — for an unknown externalId, yet it allocates a pen slot (slot 0 becomes
active, bound to externalId 7). -/
theorem claim_C9_counterexample :
    (RDPINPUT_CONTACT_FLAG_UPDATE ||| RDPINPUT_CONTACT_FLAG_INRANGE) &&&
      RDPINPUT_CONTACT_FLAG_DOWN = 0 ∧
    (c9_state.penContactPoints.getD 0 zeroPenContactPoint).active = true ∧
    (c9_state.penContactPoints.getD 0 zeroPenContactPoint).externalId = 7 := by
  decide

/-- C9 amended: in the touch registry a slot is created only by an event whose
flags carry DOWN (an event without DOWN never changes any slot identity —
active flag, externalId or contactId); in the pen registry a slot for an
unknown externalId is created exactly when the flags carry INRANGE, whether or
not DOWN is present: without INRANGE the event is dropped with the state
unchanged, with INRANGE (and a free slot) a slot is bound to the externalId. -/
theorem claim_C9 :
    (∀ st e flags x y ff args r,
      flags &&& RDPINPUT_CONTACT_FLAG_DOWN = 0 →
      rdpei_touch_process st e flags x y ff args = some r →
      r.2.2.contactPoints.map projTouch = st.contactPoints.map projTouch) ∧
    (∀ st (e : Int) flags ff (x y : Int) args,
      flags &&& RDPINPUT_CONTACT_FLAG_INRANGE ≠ RDPINPUT_CONTACT_FLAG_INRANGE →
      (∀ cp ∈ st.penContactPoints, cp.active = true → cp.externalId ≠ e) →
      rdpei_pen_process st e flags ff x y args = (CHANNEL_RC_OK, st)) ∧
    (∀ st (e : Int) flags ff (x y : Int) args,
      flags &&& RDPINPUT_CONTACT_FLAG_INRANGE = RDPINPUT_CONTACT_FLAG_INRANGE →
      (∀ cp ∈ st.penContactPoints, cp.active = true → cp.externalId ≠ e) →
      (∃ cp ∈ st.penContactPoints, cp.active = false) →
      ∃ (i : Nat) (q : RDPINPUT_PEN_CONTACT_POINT),
        ((rdpei_pen_process st e flags ff x y args).2).penContactPoints[i]? =
          some q ∧ q.active = true ∧ q.externalId = e) := by
  refine ⟨?_, ?_, ?_⟩
  · intro st e flags x y ff args r hflags h
    exact touch_process_proj st e flags x y ff args r hflags h
  · intro st e flags ff x y args hm hno
    have hnone := pen_loop_true_none_of e st.penContactPoints 0 hno
    simp [rdpei_pen_process, rdpei_pen_contact, hnone, hm]
  · intro st e flags ff x y args hm hno hex
    have hnone := pen_loop_true_none_of e st.penContactPoints 0 hno
    have hsome := pen_loop_false_isSome e st.penContactPoints 0 hex
    obtain ⟨t, ha⟩ := Option.isSome_iff_exists.mp hsome
    obtain ⟨j, cp2, pts1⟩ := t
    rcases pen_loop_shape e false st.penContactPoints 0 j cp2 pts1 ha with
      ⟨hb, _⟩ | ⟨_, k, old, hk, hold, hj, hcp2, hset⟩
    · simp at hb
    · have hklt : k < st.penContactPoints.length :=
        (List.getElem?_eq_some.mp hk).1
      have hk1 : pts1[k]? = some cp2 := by
        rw [hset]
        exact List.getElem?_set_self (by simpa using hklt)
      have hact2 : cp2.active = true := by rw [hcp2]
      have hext2 : cp2.externalId = e := by rw [hcp2]
      have hs2 := pen_loop_true_isSome e pts1 0
        ⟨cp2, List.getElem?_mem hk1, hact2, hext2⟩
      obtain ⟨t2, ha2⟩ := Option.isSome_iff_exists.mp hs2
      obtain ⟨j2, q, pts3⟩ := t2
      rcases pen_loop_shape e true pts1 0 j2 q pts3 ha2 with
        ⟨_, k2, hk2, hqa, hqe, hj2, _⟩ | ⟨hb2, _⟩
      · have hk2lt : k2 < pts1.length := (List.getElem?_eq_some.mp hk2).1
        refine ⟨k2,
          { q with
            data := rdpei_pen_build_contact flags ff x y args
            dirty := true }, ?_, hqa, hqe⟩
        simp only [rdpei_pen_process, rdpei_pen_contact, hnone, if_pos hm, ha]
        unfold rdpei_add_pen rdpei_pen_contact
        rw [ha2]
        simp only
        have hj2k : j2 = k2 := by omega
        subst hj2k
        exact List.getElem?_set_self hk2lt
      · simp at hb2

theorem touch_update_cid (st : RDPEI_PLUGIN) (e : Int) (x y : Int)
    (r : Nat × Int × RDPEI_PLUGIN) (h : rdpei_touch_update st e x y = some r) :
    r.2.1 = ((rdpei_contact_loop e true 0 st.contactPoints).map
      (fun t => (t.2.1.contactId : Int))).getD (-1) := by
  unfold rdpei_touch_update rdpei_touch_process rdpei_contact at h
  have hb : (if ((RDPINPUT_CONTACT_FLAG_UPDATE ||| RDPINPUT_CONTACT_FLAG_INRANGE |||
      RDPINPUT_CONTACT_FLAG_INCONTACT) &&& RDPINPUT_CONTACT_FLAG_DOWN ≠ 0)
      then false else true) = true := by decide
  simp only [hb] at h
  split at h
  · rename_i heq
    rw [Option.some_inj] at h
    subst h
    simp [heq]
  · rename_i j cp pts1 heq
    split at h
    · simp at h
    · rw [Option.some_inj] at h
      subst h
      simp [heq]

theorem contact_loop_true_cid_eq (e : Int) :
    ∀ (pts pts2 : List RDPINPUT_CONTACT_POINT) (i : Nat),
      pts2.map projTouch = pts.map projTouch →
      (rdpei_contact_loop e true i pts2).map (fun t => (t.2.1.contactId : Int)) =
        (rdpei_contact_loop e true i pts).map
          (fun t => (t.2.1.contactId : Int)) := by
  intro pts
  induction pts with
  | nil =>
    intro pts2 i hm
    cases pts2 with
    | nil => rfl
    | cons a b => simp at hm
  | cons cp rest ih =>
    intro pts2 i hm
    cases pts2 with
    | nil => simp at hm
    | cons cp2 rest2 =>
      simp only [List.map_cons, List.cons.injEq] at hm
      obtain ⟨hhd, htl⟩ := hm
      have ha : cp2.active = cp.active := congrArg (fun p => p.1) hhd
      have he : cp2.externalId = cp.externalId := congrArg (fun p => p.2.1) hhd
      have hc : cp2.contactId = cp.contactId := congrArg (fun p => p.2.2) hhd
      have hrec := ih rest2 (i + 1) htl
      have hgoal : ∀ (c d : RDPINPUT_CONTACT_POINT),
          ((match rdpei_contact_loop e true (i + 1) rest2 with
            | none => none
            | some (j, r, rest3) => some (j, r, d :: rest3)) :
              Option (Nat × RDPINPUT_CONTACT_POINT ×
                List RDPINPUT_CONTACT_POINT)).map
              (fun t => (t.2.1.contactId : Int)) =
          ((match rdpei_contact_loop e true (i + 1) rest with
            | none => none
            | some (j, r, rest3) => some (j, r, c :: rest3)) :
              Option (Nat × RDPINPUT_CONTACT_POINT ×
                List RDPINPUT_CONTACT_POINT)).map
              (fun t => (t.2.1.contactId : Int)) := by
        intro c d
        cases hr : rdpei_contact_loop e true (i + 1) rest with
        | none =>
          cases hr2 : rdpei_contact_loop e true (i + 1) rest2 with
          | none => rfl
          | some t2 =>
            rw [hr, hr2] at hrec
            simp at hrec
        | some t =>
          obtain ⟨j, q, qrest⟩ := t
          cases hr2 : rdpei_contact_loop e true (i + 1) rest2 with
          | none =>
            rw [hr, hr2] at hrec
            simp at hrec
          | some t2 =>
            obtain ⟨j2, q2, qrest2⟩ := t2
            rw [hr, hr2] at hrec
            simpa using hrec
      simp only [rdpei_contact_loop, ha, he]
      split_ifs with h1 h2 h3
      · exact hgoal cp cp2
      · exact absurd h2.2 (by simp)
      · simp [hc]
      · exact hgoal cp cp2

/-- C5: the contactId emitted for one externalId is stable across updates (two
consecutive updates return the same id); no touch event changes the identity
triple (active, externalId, contactId) of any active slot; a drain that emits
flags carrying UP (touch) or CANCELED (pen) deactivates the slot and releases
its identity (externalId cleared, contactId/active reset for touch, externalId
and active reset for pen); and the drains apply exactly this per-slot step. -/
theorem claim_C5 :
    (∀ st (e : Int) (x y : Int) r1, rdpei_touch_update st e x y = some r1 →
      ∀ (x2 y2 : Int) r2, rdpei_touch_update r1.2.2 e x2 y2 = some r2 →
        r2.2.1 = r1.2.1) ∧
    (∀ st (e : Int) flags (x y : Int) ff args r,
      rdpei_touch_process st e flags x y ff args = some r →
      ∀ (k : Nat) (q : RDPINPUT_CONTACT_POINT),
        st.contactPoints[k]? = some q → q.active = true →
        (r.2.2.contactPoints[k]?).map projTouch = some (projTouch q)) ∧
    (∀ cp d, rdpei_frame_emit cp = some d →
      d.contactFlags &&& RDPINPUT_CONTACT_FLAG_UP ≠ 0 →
      rdpei_frame_step cp =
        { cp with
          dirty := false
          active := false
          externalId := 0
          contactId := 0 }) ∧
    (∀ cp d, rdpei_pen_frame_emit cp = some d →
      d.contactFlags &&& RDPINPUT_CONTACT_FLAG_CANCELED ≠ 0 →
      rdpei_pen_frame_step cp =
        { cp with dirty := false, externalId := 0, active := false }) ∧
    (∀ pts, (rdpei_add_frame_scan pts).2 = pts.map rdpei_frame_step) ∧
    (∀ pts, (rdpei_add_pen_frame_scan pts).2 = pts.map rdpei_pen_frame_step) := by
  refine ⟨?_, ?_, ?_, ?_, add_frame_scan_snd, add_pen_frame_scan_snd⟩
  · intro st e x y r1 h1 x2 y2 r2 h2
    have hd : (RDPINPUT_CONTACT_FLAG_UPDATE ||| RDPINPUT_CONTACT_FLAG_INRANGE |||
        RDPINPUT_CONTACT_FLAG_INCONTACT) &&& RDPINPUT_CONTACT_FLAG_DOWN = 0 := by
      decide
    have hproj := touch_process_proj st e _ x y 0 zeroTouchArgs r1 hd h1
    have hc1 := touch_update_cid st e x y r1 h1
    have hc2 := touch_update_cid r1.2.2 e x2 y2 r2 h2
    have hdet := contact_loop_true_cid_eq e st.contactPoints
      r1.2.2.contactPoints 0 hproj
    rw [hc1, hc2, hdet]
  · intro st e flags x y ff args r h k q hk hq
    unfold rdpei_touch_process at h
    dsimp only at h
    split at h
    · rw [Option.some_inj] at h
      subst h
      simp [hk]
    · rename_i j cp pts1 heq
      split at h
      · simp at h
      · rename_i pts2 hadd
        rw [Option.some_inj] at h
        subst h
        simp only
        have hm := add_contact_proj pts1 _ pts2 hadd
        have hmap : (pts2[k]?).map projTouch = (pts1[k]?).map projTouch := by
          have h2 : (pts2.map projTouch)[k]? = (pts1.map projTouch)[k]? := by
            rw [hm]
          rwa [List.getElem?_map, List.getElem?_map] at h2
        rw [hmap]
        rcases contact_loop_shape e _ st.contactPoints 0 j cp pts1 heq with
          ⟨k0, hk0, _, _, _, hpts1⟩ | ⟨k0, old, hk0, hold, _, hj, hcp, hset⟩
        · rw [hpts1, hk]
          rfl
        · have hne : k ≠ k0 := by
            intro hkk
            subst hkk
            have hqo : q = old := by
              have := hk.symm.trans hk0
              rwa [Option.some_inj] at this
            rw [hqo] at hq
            rw [hq] at hold
            simp at hold
          rw [hset, List.getElem?_set_ne (Ne.symm hne), hk]
          rfl
  · intro cp d he hup
    obtain ⟨ca, cd, cc, ce, cdata⟩ := cp
    have hu : updateFlags &&& RDPINPUT_CONTACT_FLAG_UP = 0 := by decide
    unfold rdpei_frame_emit at he
    unfold rdpei_frame_step
    split_ifs at he ⊢ <;>
      first
      | (rw [Option.some_inj] at he; subst he; exact absurd hu hup)
      | simp_all
  · intro cp d he hup
    obtain ⟨ca, cd, ce, cdata⟩ := cp
    have hu : updateFlags &&& RDPINPUT_CONTACT_FLAG_CANCELED = 0 := by decide
    unfold rdpei_pen_frame_emit at he
    unfold rdpei_pen_frame_step
    split_ifs at he ⊢ <;>
      first
      | (rw [Option.some_inj] at he; subst he; exact absurd hu hup)
      | simp_all

/-- C5 witness: two consecutive updates for externalId 5 on the one-contact
state return the same contactId. -/
theorem claim_C5_witness : c5_r2.2.1 = c5_r1.2.1 :=
  claim_C5.1 resumedDirtyState 5 1 2 c5_r1 rfl 3 4 c5_r2 rfl

theorem touchIdInv_set (pts : List RDPINPUT_CONTACT_POINT) (k : Nat)
    (v : RDPINPUT_CONTACT_POINT) (hinv : touchIdInv pts)
    (hv : v.contactId < pts.length) : touchIdInv (pts.set k v) := by
  intro c hc
  rw [List.length_set]
  rcases List.mem_or_eq_of_mem_set hc with hm | rfl
  · exact hinv c hm
  · exact hv

theorem contact_lookup_inv (pts : List RDPINPUT_CONTACT_POINT) (e : Int)
    (b : Bool) (j : Nat) (cp : RDPINPUT_CONTACT_POINT)
    (pts1 : List RDPINPUT_CONTACT_POINT) (hinv : touchIdInv pts)
    (heq : rdpei_contact pts e b = some (j, cp, pts1)) :
    touchIdInv pts1 ∧ cp.contactId < pts1.length ∧ pts1.length = pts.length := by
  rcases contact_loop_shape e b pts 0 j cp pts1 heq with
    ⟨k, hk, _, _, hj, hpts⟩ | ⟨k, old, hk, hold, _, hj, hcp, hset⟩
  · subst hpts
    exact ⟨hinv, hinv cp (List.getElem?_mem hk), rfl⟩
  · have hklt : k < pts.length := (List.getElem?_eq_some.mp hk).1
    have hcid : cp.contactId = k := by
      rw [hcp]
      show j = k
      omega
    subst hset
    refine ⟨touchIdInv_set pts k cp hinv (by omega), ?_, List.length_set pts k cp ▸ rfl⟩
    rw [List.length_set]
    omega

theorem add_contact_isSome (pts : List RDPINPUT_CONTACT_POINT)
    (c : RDPINPUT_CONTACT_DATA) :
    (rdpei_add_contact pts c).isSome = true ↔ c.contactId < pts.length := by
  unfold rdpei_add_contact
  split
  · rename_i ho
    have hle := List.getElem?_eq_none_iff.mp ho
    simp only [Option.isSome_none, Bool.false_eq_true, false_iff]
    omega
  · rename_i old ho
    have hlt := (List.getElem?_eq_some.mp ho).1
    simp only [Option.isSome_some, true_iff]
    exact hlt

/-- C10: the unchecked AddContact write is in-bounds exactly when
contactId < table size; under the registry invariant (every stored contactId is
a valid index, which init establishes with the 64-slot table and which event
processing and drains preserve) every touch event's write is in-bounds. -/
theorem claim_C10 :
    (∀ pts c, (rdpei_add_contact pts c).isSome = true ↔
      c.contactId < pts.length) ∧
    (∀ st (e : Int) flags (x y : Int) ff args, touchIdInv st.contactPoints →
      (rdpei_touch_process st e flags x y ff args).isSome = true) ∧
    (∀ st (e : Int) flags (x y : Int) ff args r, touchIdInv st.contactPoints →
      rdpei_touch_process st e flags x y ff args = some r →
      touchIdInv r.2.2.contactPoints) ∧
    (∀ pts, touchIdInv pts → touchIdInv (rdpei_add_frame_scan pts).2) ∧
    (∀ connected suspended,
      touchIdInv (rdpei_init_state connected suspended).contactPoints ∧
      (rdpei_init_state connected suspended).contactPoints.length =
        MAX_CONTACTS) := by
  have hstep : ∀ cp : RDPINPUT_CONTACT_POINT,
      (rdpei_frame_step cp).contactId = cp.contactId ∨
      (rdpei_frame_step cp).contactId = 0 := by
    intro cp
    unfold rdpei_frame_step
    dsimp only
    split_ifs <;> simp
  refine ⟨add_contact_isSome, ?_, ?_, ?_, ?_⟩
  · intro st e flags x y ff args hinv
    unfold rdpei_touch_process
    dsimp only
    split
    · rfl
    · rename_i j cp pts1 heq
      obtain ⟨hinv1, hcid, hlen⟩ :=
        contact_lookup_inv st.contactPoints e _ j cp pts1 hinv heq
      split
      · rename_i hadd
        have hs := (add_contact_isSome pts1
          (rdpei_touch_build_contact cp.contactId flags x y ff args)).mpr hcid
        rw [hadd] at hs
        simp at hs
      · rfl
  · intro st e flags x y ff args r hinv h
    unfold rdpei_touch_process at h
    dsimp only at h
    split at h
    · rw [Option.some_inj] at h
      subst h
      exact hinv
    · rename_i j cp pts1 heq
      obtain ⟨hinv1, hcid, hlen⟩ :=
        contact_lookup_inv st.contactPoints e _ j cp pts1 hinv heq
      split at h
      · simp at h
      · rename_i pts2 hadd
        rw [Option.some_inj] at h
        subst h
        simp only
        unfold rdpei_add_contact at hadd
        split at hadd
        · simp at hadd
        · rename_i old ho
          rw [Option.some_inj] at hadd
          subst hadd
          exact touchIdInv_set pts1 _ _ hinv1 (hinv1 old (List.getElem?_mem ho))
  · intro pts hinv
    rw [add_frame_scan_snd]
    intro c hc
    rw [List.length_map]
    obtain ⟨c0, hc0, rfl⟩ := List.mem_map.mp hc
    rcases hstep c0 with h | h
    · rw [h]
      exact hinv c0 hc0
    · rw [h]
      exact List.length_pos.mpr (by rintro rfl; simp at hc0)
  · intro connected suspended
    constructor
    · intro cp hm
      have hcp := List.eq_of_mem_replicate hm
      subst hcp
      simp [zeroContactPoint, rdpei_init_state, MAX_CONTACTS]
    · simp [rdpei_init_state]

/-- C10 witness: on the freshly initialised 64-slot state a touch begin
succeeds (its unchecked AddContact write is in-bounds). -/
theorem claim_C10_witness :
    (rdpei_touch_process (rdpei_init_state true false) 1
      (RDPINPUT_CONTACT_FLAG_DOWN ||| RDPINPUT_CONTACT_FLAG_INRANGE |||
        RDPINPUT_CONTACT_FLAG_INCONTACT) 4 5 0 zeroTouchArgs).isSome = true :=
  claim_C10.2.1 (rdpei_init_state true false) 1
    (RDPINPUT_CONTACT_FLAG_DOWN ||| RDPINPUT_CONTACT_FLAG_INRANGE |||
      RDPINPUT_CONTACT_FLAG_INCONTACT) 4 5 0 zeroTouchArgs
    (claim_C10.2.2.2.2 true false).1

/-- C9 witness: on the fresh state a pen event with UPDATE ||| INRANGE for the
unknown externalId 7 allocates an active slot bound to 7. -/
theorem claim_C9_witness :
    ∃ (i : Nat) (q : RDPINPUT_PEN_CONTACT_POINT),
      ((rdpei_pen_process (rdpei_init_state true false) 7
          (RDPINPUT_CONTACT_FLAG_UPDATE ||| RDPINPUT_CONTACT_FLAG_INRANGE) 0 5 5
          zeroPenArgs).2).penContactPoints[i]? = some q ∧
      q.active = true ∧ q.externalId = 7 :=
  claim_C9.2.2 (rdpei_init_state true false) 7
    (RDPINPUT_CONTACT_FLAG_UPDATE ||| RDPINPUT_CONTACT_FLAG_INRANGE) 0 5 5
    zeroPenArgs (by decide) (by decide) (by decide)
